import Mathlib

/-!
Shallow embedding of the layer library core:
validator/normalizer (LayerValidator.ts), asset resolver (LayerImageResolver.ts),
behavior functions (LayerLogicSpin/Orbit/Pulse/Fade.ts), image/container fitting
(LayerMappingImage.ts), screen mapping (LayerMappingScreen.ts) and the
producer/composer pipelines (LayerProducer.ts, LayerPipeline.ts).

JavaScript numbers are modelled by `JsVal α`: a finite value of type `α`
(ℚ for config data, ℝ for runtime math) or one of NaN/±Infinity.
Validator data stays over ℚ so that it is fully computable; behavior math
uses ℝ because of sin/cos/π.
-/

set_option maxHeartbeats 1000000

namespace Layer

/-- A JavaScript number: finite payload or NaN / +Infinity / -Infinity. -/
inductive JsVal (α : Type) where
  | fin (x : α)
  | nan
  | inf
  | ninf
  deriving DecidableEq, Repr

abbrev JNum := JsVal ℚ
abbrev JReal := JsVal ℝ

/-- `Number.isFinite` on a modelled JS number. -/
def JsVal.isFinite {α : Type} : JsVal α → Bool
  | .fin _ => true
  | _ => false

/-- Payload of a finite JS number (junk `0` for non-finite values; only
used behind `isFinite` guards, mirroring the source). -/
def JsVal.val {α : Type} [Zero α] : JsVal α → α
  | .fin x => x
  | _ => 0

/-- Finite 2D vector (ℚ), the normalized `Vec2`. -/
structure Vec2 where
  x : ℚ
  y : ℚ
  deriving DecidableEq, Repr

/-- Raw `Vec2` as it arrives in untrusted JSON: both components are JS numbers. -/
structure JVec2 where
  x : JNum
  y : JNum
  deriving DecidableEq, Repr

/-- 2D vector over ℝ for runtime math. -/
structure RVec2 where
  x : ℝ
  y : ℝ

def Vec2.toR (v : Vec2) : RVec2 := ⟨(v.x : ℝ), (v.y : ℝ)⟩

inductive StageOrigin where
  | center
  | topLeft
  deriving DecidableEq, Repr

inductive Direction where
  | cw
  | ccw
  deriving DecidableEq, Repr

inductive FitMode where
  | contain
  | cover
  | stretch
  deriving DecidableEq, Repr

inductive Alignment where
  | center
  | topLeft
  | top
  | topRight
  | left
  | right
  | bottomLeft
  | bottom
  | bottomRight
  deriving DecidableEq, Repr

/- ----------------------------------------------------------------
   Raw (untrusted) config shapes, mirroring LayerTypes.ts input types.
   Optional JSON fields become `Option`; string-typed enum fields are
   kept as raw `String` because the validator checks them itself.
   ---------------------------------------------------------------- -/

structure StageConfig where
  width : Option JNum := none
  height : Option JNum := none
  origin : Option String := none
  deriving DecidableEq, Repr

/-- `scale?: number | Vec2`. -/
inductive RawScale where
  | num (n : JNum)
  | vec (v : JVec2)
  deriving DecidableEq, Repr

/-- `Partial<SpinConfig>` in a raw behaviors block. -/
structure SpinRaw where
  enabled : Option Bool := none
  rpm : Option JNum := none
  direction : Option Direction := none
  deriving DecidableEq, Repr

/-- `Partial<OrbitConfig>` in a raw behaviors block. -/
structure OrbitRaw where
  enabled : Option Bool := none
  rpm : Option JNum := none
  radius : Option JNum := none
  center : Option JVec2 := none
  deriving DecidableEq, Repr

/-- `Partial<PulseConfig>` in a raw behaviors block. -/
structure PulseRaw where
  enabled : Option Bool := none
  amplitude : Option JNum := none
  rpm : Option JNum := none
  deriving DecidableEq, Repr

/-- `Partial<FadeConfig>` in a raw behaviors block
(`from`/`to` are renamed `fromVal`/`toVal`: `from` is reserved in Lean). -/
structure FadeRaw where
  enabled : Option Bool := none
  fromVal : Option JNum := none
  toVal : Option JNum := none
  rpm : Option JNum := none
  deriving DecidableEq, Repr

structure BehaviorsConfig where
  spin : Option SpinRaw := none
  orbit : Option OrbitRaw := none
  pulse : Option PulseRaw := none
  fade : Option FadeRaw := none
  deriving DecidableEq, Repr

/-- A JS value checked with `typeof x === "boolean"`. -/
inductive JBool where
  | bool (b : Bool)
  | notBool
  deriving DecidableEq, Repr

/-- The untyped `set` patch bag of an event action entry. -/
structure RawSet where
  rpm : Option JNum := none
  enabled : Option JBool := none
  direction : Option String := none
  radius : Option JNum := none
  center : Option JVec2 := none
  amplitude : Option JNum := none
  fromVal : Option JNum := none
  toVal : Option JNum := none
  deriving DecidableEq, Repr

/-- `entry.set`: absent/falsy, a truthy non-object, or an object. -/
inductive RawSetVal where
  | obj (s : RawSet)
  | notObj
  deriving DecidableEq, Repr

/-- One entry of an event hook list; `action` is an arbitrary raw string
(absent models a non-string/undefined action). -/
structure RawEvent where
  action : Option String := none
  set : Option RawSetVal := none
  deriving DecidableEq, Repr

/-- A raw hook value: an actual array, or some non-array value. -/
inductive RawEventList where
  | arr (l : List RawEvent)
  | notArr
  deriving DecidableEq, Repr

structure EventHooks where
  onPress : Option RawEventList := none
  onHover : Option RawEventList := none
  onRelease : Option RawEventList := none
  deriving DecidableEq, Repr

/-- Raw `LayerConfig` (input JSON shape). `layerId : Option String` models
"absent or not a string" as `none`. -/
structure LayerConfig where
  layerId : Option String := none
  imagePath : Option String := none
  registryKey : Option String := none
  position : Option JVec2 := none
  scale : Option RawScale := none
  angle : Option JNum := none
  tilt : Option JVec2 := none
  anchor : Option JVec2 := none
  opacity : Option JNum := none
  behaviors : Option BehaviorsConfig := none
  events : Option EventHooks := none
  layerWidth : Option JNum := none
  layerHeight : Option JNum := none
  fitMode : Option String := none
  alignment : Option String := none
  deriving DecidableEq, Repr

/-- Raw `LibraryConfig`; `layers = none` models a non-array `layers` value. -/
structure LibraryConfig where
  stage : Option StageConfig := none
  layers : Option (List LayerConfig) := none
  deriving DecidableEq, Repr

end Layer

namespace Layer

/- ----------------------------------------------------------------
   Normalized config shapes (ℚ-valued, fully defaulted).
   ---------------------------------------------------------------- -/

structure StageConfigNormalized where
  width : ℚ
  height : ℚ
  origin : StageOrigin
  deriving DecidableEq, Repr

/-- Normalized `SpinConfig` (validator output, ℚ). -/
structure SpinConfigQ where
  enabled : Bool
  rpm : ℚ
  direction : Direction
  deriving DecidableEq, Repr

/-- Normalized `OrbitConfig` (validator output, ℚ). -/
structure OrbitConfigQ where
  enabled : Bool
  rpm : ℚ
  radius : ℚ
  center : Option Vec2
  deriving DecidableEq, Repr

/-- Normalized `PulseConfig` (validator output, ℚ). -/
structure PulseConfigQ where
  enabled : Bool
  amplitude : ℚ
  rpm : ℚ
  deriving DecidableEq, Repr

/-- Normalized `FadeConfig` (validator output, ℚ);
`fromVal`/`toVal` stand for the source fields `from`/`to`. -/
structure FadeConfigQ where
  enabled : Bool
  fromVal : ℚ
  toVal : ℚ
  rpm : ℚ
  deriving DecidableEq, Repr

structure BehaviorsConfigNormalized where
  spin : SpinConfigQ
  orbit : OrbitConfigQ
  pulse : PulseConfigQ
  fade : FadeConfigQ
  deriving DecidableEq, Repr

inductive AssetRef where
  | path (p : String)
  | registry (key : String)
  deriving DecidableEq, Repr

/-- Normalized event hooks: each present key maps to the filtered entry
list.  Entries are kept verbatim (the source appends the raw entry). -/
structure EventHooksNormalized where
  onPress : Option (List RawEvent) := none
  onHover : Option (List RawEvent) := none
  onRelease : Option (List RawEvent) := none
  deriving DecidableEq, Repr

/-- The `container` object packed by the validator.  The source builds it
with unchecked casts (`fitMode as FitMode`), so at runtime the fields hold
whatever raw value was present — including `undefined`; hence `Option`. -/
structure ContainerNormalized where
  width : Option ℚ
  height : Option ℚ
  fitMode : Option String
  alignment : Option String
  deriving DecidableEq, Repr

structure LayerConfigNormalized where
  layerId : String
  assetRef : AssetRef
  position : Vec2
  scale : Vec2
  angle : ℚ
  tilt : Vec2
  anchor : Vec2
  opacity : ℚ
  behaviors : BehaviorsConfigNormalized
  events : EventHooksNormalized
  container : Option ContainerNormalized
  deriving DecidableEq, Repr

structure LibraryConfigNormalized where
  stage : StageConfigNormalized
  layers : List LayerConfigNormalized
  deriving DecidableEq, Repr

inductive Severity where
  | error
  | warning
  deriving DecidableEq, Repr

structure ValidationIssue where
  code : String
  path : String
  message : String
  severity : Severity
  deriving DecidableEq, Repr

structure ValidationResult where
  ok : Bool
  errors : List ValidationIssue
  warnings : List ValidationIssue
  normalized : Option LibraryConfigNormalized
  deriving DecidableEq, Repr

/- ----------------------------------------------------------------
   Validator guards / helpers (LayerValidator.ts).
   ---------------------------------------------------------------- -/

/-- `isNum`: `typeof n === "number" && Number.isFinite(n)` on an optional
raw field (`none` = absent or not a number). -/
def isNum : Option JNum → Bool
  | some n => n.isFinite
  | none => false

/-- Finite payload of an optional raw number (junk 0 when absent). -/
def numVal : Option JNum → ℚ
  | some n => n.val
  | none => 0

/-- `isVec2`: object with finite numeric `x` and `y`. -/
def isVec2 : Option JVec2 → Bool
  | some v => v.x.isFinite && v.y.isFinite
  | none => false

def jvecVal : Option JVec2 → Vec2
  | some v => ⟨v.x.val, v.y.val⟩
  | none => ⟨0, 0⟩

def isFitMode (m : String) : Bool :=
  m == "contain" || m == "cover" || m == "stretch"

def isAlignment (a : String) : Bool :=
  a == "center" || a == "top-left" || a == "top" || a == "top-right" ||
  a == "left" || a == "right" || a == "bottom-left" || a == "bottom" ||
  a == "bottom-right"

def isOrigin (o : String) : Bool :=
  o == "center" || o == "top-left"

def clamp01 (n : ℚ) : ℚ := max 0 (min 1 n)

def DEFAULT_STAGE : StageConfigNormalized := ⟨2048, 2048, .center⟩

/- 0.5, written with `mkRat` so that it evaluates in the kernel. -/
def DEFAULT_ANCHOR : Vec2 := ⟨mkRat 1 2, mkRat 1 2⟩
def DEFAULT_POSITION : Vec2 := ⟨0, 0⟩
def DEFAULT_TILT : Vec2 := ⟨0, 0⟩
def DEFAULT_SCALE : Vec2 := ⟨1, 1⟩
def DEFAULT_OPACITY : ℚ := 1

def DEFAULT_BEHAVIORS : BehaviorsConfigNormalized :=
  { spin := ⟨false, 0, .cw⟩
    orbit := ⟨false, 0, 0, none⟩
    pulse := ⟨false, 0, 0⟩
    fade := ⟨false, 1, 1, 0⟩ }

def normalizeScale : Option RawScale → Vec2
  | some (.num n) => if n.isFinite then ⟨n.val, n.val⟩ else DEFAULT_SCALE
  | some (.vec v) => if isVec2 (some v) then ⟨v.x.val, v.y.val⟩ else DEFAULT_SCALE
  | none => DEFAULT_SCALE

/-- Truthiness of an optional string (`undefined` and `""` are falsy). -/
def strTruthy : Option String → Bool
  | some s => s ≠ ""
  | none => false

def toAssetRef (layer : LayerConfig) : Option AssetRef :=
  let hasPath := strTruthy layer.imagePath
  let hasKey := strTruthy layer.registryKey
  if hasPath && hasKey then none
  else if !hasPath && !hasKey then none
  else if hasPath then some (.path (layer.imagePath.getD ""))
  else some (.registry (layer.registryKey.getD ""))

def normalizeBehaviors (b : Option BehaviorsConfig) : BehaviorsConfigNormalized :=
  { spin :=
      { enabled := (((b.bind (·.spin)).bind (·.enabled)).getD DEFAULT_BEHAVIORS.spin.enabled)
        rpm := if isNum ((b.bind (·.spin)).bind (·.rpm)) then
            numVal ((b.bind (·.spin)).bind (·.rpm))
          else DEFAULT_BEHAVIORS.spin.rpm
        direction := ((b.bind (·.spin)).bind (·.direction)).getD .cw }
    orbit :=
      { enabled := (((b.bind (·.orbit)).bind (·.enabled)).getD DEFAULT_BEHAVIORS.orbit.enabled)
        rpm := if isNum ((b.bind (·.orbit)).bind (·.rpm)) then
            numVal ((b.bind (·.orbit)).bind (·.rpm))
          else DEFAULT_BEHAVIORS.orbit.rpm
        radius := if isNum ((b.bind (·.orbit)).bind (·.radius)) then
            numVal ((b.bind (·.orbit)).bind (·.radius))
          else DEFAULT_BEHAVIORS.orbit.radius
        center := match (b.bind (·.orbit)).bind (·.center) with
          | some c => if isVec2 (some c) then some ⟨c.x.val, c.y.val⟩ else none
          | none => none }
    pulse :=
      { enabled := (((b.bind (·.pulse)).bind (·.enabled)).getD DEFAULT_BEHAVIORS.pulse.enabled)
        amplitude := if isNum ((b.bind (·.pulse)).bind (·.amplitude)) then
            numVal ((b.bind (·.pulse)).bind (·.amplitude))
          else DEFAULT_BEHAVIORS.pulse.amplitude
        rpm := if isNum ((b.bind (·.pulse)).bind (·.rpm)) then
            numVal ((b.bind (·.pulse)).bind (·.rpm))
          else DEFAULT_BEHAVIORS.pulse.rpm }
    fade :=
      { enabled := (((b.bind (·.fade)).bind (·.enabled)).getD DEFAULT_BEHAVIORS.fade.enabled)
        fromVal := if isNum ((b.bind (·.fade)).bind (·.fromVal)) then
            clamp01 (numVal ((b.bind (·.fade)).bind (·.fromVal)))
          else DEFAULT_BEHAVIORS.fade.fromVal
        toVal := if isNum ((b.bind (·.fade)).bind (·.toVal)) then
            clamp01 (numVal ((b.bind (·.fade)).bind (·.toVal)))
          else DEFAULT_BEHAVIORS.fade.toVal
        rpm := if isNum ((b.bind (·.fade)).bind (·.rpm)) then
            numVal ((b.bind (·.fade)).bind (·.rpm))
          else DEFAULT_BEHAVIORS.fade.rpm } }

end Layer

namespace Layer

/- ----------------------------------------------------------------
   Event-hook validation (validateEvents in LayerValidator.ts).
   ---------------------------------------------------------------- -/

/-- `o !== undefined && !isNum(o)`: a present field that is not a finite number. -/
def badNum (o : Option JNum) : Bool := o.isSome && !(isNum o)

/-- Check one hook entry; returns the recorded issues and, when the entry
is not dropped, the entry itself (field-level errors do NOT drop it). -/
def checkEventEntry (path : String) (entry : RawEvent) : List ValidationIssue × Option RawEvent :=
  let action := entry.action
  if !(action == some "spin" || action == some "orbit" ||
       action == some "pulse" || action == some "fade") then
    ([⟨"events.action.unknown", path,
       "unknown action \"" ++ action.getD "undefined" ++ "\" (spin|orbit|pulse|fade)",
       .error⟩], none)
  else
    match entry.set with
    | some .notObj =>
        ([⟨"events.set.invalid", path, "set must be an object", .error⟩], none)
    | other =>
      let setObj : Option RawSet := match other with
        | some (.obj s) => some s
        | _ => none
      let i1 := if badNum (setObj.bind (·.rpm)) then
          [⟨"events.set.rpm", path, "rpm must be number", .error⟩] else []
      let i2 := if (setObj.bind (·.enabled)) == some .notBool then
          [⟨"events.set.enabled", path, "enabled must be boolean", .error⟩] else []
      let dir := setObj.bind (·.direction)
      let i3 := if action == some "spin" && strTruthy dir &&
                   !(dir == some "cw" || dir == some "ccw") then
          [⟨"events.set.direction", path, "direction must be \"cw\"|\"ccw\"", .error⟩] else []
      let i4 := if action == some "orbit" && badNum (setObj.bind (·.radius)) then
          [⟨"events.set.radius", path, "radius must be number", .error⟩] else []
      let i5 := if action == some "orbit" && (setObj.bind (·.center)).isSome &&
                   !(isVec2 (setObj.bind (·.center))) then
          [⟨"events.set.center", path, "center must be \x7bx,y\x7d", .error⟩] else []
      let i6 := if action == some "pulse" && badNum (setObj.bind (·.amplitude)) then
          [⟨"events.set.amplitude", path, "amplitude must be number", .error⟩] else []
      let i7 := if action == some "fade" && badNum (setObj.bind (·.fromVal)) then
          [⟨"events.set.from", path, "from must be number", .error⟩] else []
      let i8 := if action == some "fade" && badNum (setObj.bind (·.toVal)) then
          [⟨"events.set.to", path, "to must be number", .error⟩] else []
      (i1 ++ i2 ++ i3 ++ i4 ++ i5 ++ i6 ++ i7 ++ i8, some entry)

/-- Walk the entries of one hook array with their indices. -/
def checkEventEntries (keyPath : String) : Nat → List RawEvent → List ValidationIssue × List RawEvent
  | _, [] => ([], [])
  | i, e :: es =>
    let head := checkEventEntry (keyPath ++ "[" ++ Nat.repr i ++ "]") e
    let rest := checkEventEntries keyPath (i + 1) es
    (head.1 ++ rest.1, head.2.toList ++ rest.2)

/-- One key of the hooks object (`onPress` / `onHover` / `onRelease`). -/
def validateEventKey (basePath k : String) (v : Option RawEventList) :
    List ValidationIssue × Option (List RawEvent) :=
  match v with
  | none => ([], none)
  | some .notArr =>
      ([⟨"events.invalid", basePath ++ "." ++ k, "must be an array", .error⟩], none)
  | some (.arr l) =>
      let r := checkEventEntries (basePath ++ "." ++ k) 0 l
      (r.1, some r.2)

def validateEvents (hooks : Option EventHooks) (basePath : String) :
    List ValidationIssue × EventHooksNormalized :=
  let h := hooks.getD {}
  let p := validateEventKey basePath "onPress" h.onPress
  let hv := validateEventKey basePath "onHover" h.onHover
  let r := validateEventKey basePath "onRelease" h.onRelease
  (p.1 ++ hv.1 ++ r.1, ⟨p.2, hv.2, r.2⟩)

/- ----------------------------------------------------------------
   Per-layer validation + normalization (the forEach body of
   validateLibraryConfig).
   ---------------------------------------------------------------- -/

/-- Truthiness of `number | undefined` (0 and `undefined` are falsy). -/
def qTruthy : Option ℚ → Bool
  | some q => decide (q ≠ 0)
  | none => false

/-- `o !== undefined && o <= 0`. -/
def nonPosQ : Option ℚ → Bool
  | some q => decide (q ≤ 0)
  | none => false

structure ProcessOut where
  errors : List ValidationIssue
  warnings : List ValidationIssue
  seenId : Option String
  norm : Option LayerConfigNormalized
  deriving DecidableEq, Repr

def layerBase (idx : Nat) : String := "layers[" ++ Nat.repr idx ++ "]"

/- The per-layer consts of the forEach body, as named helpers. -/

def normPosition (layer : LayerConfig) : Vec2 :=
  if isVec2 layer.position then jvecVal layer.position else DEFAULT_POSITION

def normAngle (layer : LayerConfig) : ℚ :=
  if isNum layer.angle then numVal layer.angle else 0

def normTilt (layer : LayerConfig) : Vec2 :=
  if isVec2 layer.tilt then jvecVal layer.tilt else DEFAULT_TILT

def normAnchor (layer : LayerConfig) : Vec2 :=
  if isVec2 layer.anchor then jvecVal layer.anchor else DEFAULT_ANCHOR

def normOpacity (layer : LayerConfig) : ℚ :=
  if isNum layer.opacity then numVal layer.opacity else DEFAULT_OPACITY

def widthOf (layer : LayerConfig) : Option ℚ :=
  if isNum layer.layerWidth then some (numVal layer.layerWidth) else none

def heightOf (layer : LayerConfig) : Option ℚ :=
  if isNum layer.layerHeight then some (numVal layer.layerHeight) else none

/-- Range warnings for opacity/anchor (warning only, value untouched). -/
def rangeWarnings (idx : Nat) (layer : LayerConfig) : List ValidationIssue :=
  (if normOpacity layer < 0 ∨ normOpacity layer > 1 then
      [⟨"layer.opacity.range", layerBase idx ++ ".opacity",
        "opacity should be within [0,1]", .warning⟩]
    else []) ++
  (if (normAnchor layer).x < 0 ∨ (normAnchor layer).x > 1 ∨
      (normAnchor layer).y < 0 ∨ (normAnchor layer).y > 1 then
      [⟨"layer.anchor.range", layerBase idx ++ ".anchor",
        "anchor should be [0..1]", .warning⟩]
    else [])

/-- Negative-rate warnings over the normalized behaviors. -/
def behaviorWarnings (idx : Nat) (b : BehaviorsConfigNormalized) : List ValidationIssue :=
  (if b.orbit.radius < 0 ∨ b.orbit.rpm < 0 then
      [⟨"behavior.orbit.range", layerBase idx ++ ".behaviors.orbit",
        "rpm & radius should be >= 0", .warning⟩]
    else []) ++
  (if b.spin.rpm < 0 then
      [⟨"behavior.spin.range", layerBase idx ++ ".behaviors.spin.rpm",
        "rpm should be >= 0", .warning⟩]
    else []) ++
  (if b.pulse.rpm < 0 ∨ b.pulse.amplitude < 0 then
      [⟨"behavior.pulse.range", layerBase idx ++ ".behaviors.pulse",
        "rpm & amplitude should be >= 0", .warning⟩]
    else []) ++
  (if b.fade.rpm < 0 then
      [⟨"behavior.fade.range", layerBase idx ++ ".behaviors.fade.rpm",
        "rpm should be >= 0", .warning⟩]
    else [])

/-- Container consistency errors (fit/alignment validity, missing or
non-positive dimensions). -/
def containerErrors (idx : Nat) (layer : LayerConfig) : List ValidationIssue :=
  (match layer.fitMode with
    | some m => if isFitMode m then [] else
        [⟨"layer.fit.invalid", layerBase idx ++ ".fitMode",
          "fitMode must be contain|cover|stretch", .error⟩]
    | none => []) ++
  (match layer.alignment with
    | some a => if isAlignment a then [] else
        [⟨"layer.alignment.invalid", layerBase idx ++ ".alignment",
          "invalid alignment", .error⟩]
    | none => []) ++
  (if (layer.fitMode.isSome || layer.alignment.isSome) &&
      (!(qTruthy (widthOf layer)) || !(qTruthy (heightOf layer))) then
      [⟨"layer.container.missing", layerBase idx,
        "fitMode/alignment requires layerWidth and layerHeight", .error⟩]
    else []) ++
  (if nonPosQ (widthOf layer) || nonPosQ (heightOf layer) then
      [⟨"layer.container.nonPositive", layerBase idx,
        "layerWidth/layerHeight must be positive numbers", .error⟩]
    else [])

/-- The packed `container` field: present when any of width/height/
fitMode/alignment is truthy, holding the raw values verbatim. -/
def containerOf (layer : LayerConfig) : Option ContainerNormalized :=
  if qTruthy (widthOf layer) || qTruthy (heightOf layer) ||
     strTruthy layer.fitMode || strTruthy layer.alignment then
    some ⟨widthOf layer, heightOf layer, layer.fitMode, layer.alignment⟩
  else none

/-- The normalized layer packed at the end of the forEach body. -/
def normalizedLayerOf (layer : LayerConfig) (lid : String) (assetRef : AssetRef)
    (idx : Nat) : LayerConfigNormalized :=
  { layerId := lid, assetRef := assetRef,
    position := normPosition layer, scale := normalizeScale layer.scale,
    angle := normAngle layer, tilt := normTilt layer,
    anchor := normAnchor layer, opacity := normOpacity layer,
    behaviors := normalizeBehaviors layer.behaviors,
    events := (validateEvents layer.events (layerBase idx ++ ".events")).2,
    container := containerOf layer }

def processLayer (idx : Nat) (layer : LayerConfig) (seen : List String) : ProcessOut :=
  match layer.layerId with
  | none =>
      ⟨[⟨"layer.id.missing", layerBase idx ++ ".layerId", "layerId required", .error⟩],
       [], none, none⟩
  | some lid =>
    if lid = "" then
      ⟨[⟨"layer.id.missing", layerBase idx ++ ".layerId", "layerId required", .error⟩],
       [], none, none⟩
    else if seen.contains lid then
      ⟨[⟨"layer.id.duplicate", layerBase idx ++ ".layerId",
         "duplicate \"" ++ lid ++ "\"", .error⟩], [], none, none⟩
    else
      match toAssetRef layer with
      | none =>
        ⟨[⟨"layer.asset.invalid", layerBase idx,
           if strTruthy layer.imagePath && strTruthy layer.registryKey then
             "imagePath and registryKey are mutually exclusive"
           else "one of imagePath or registryKey is required", .error⟩],
         [], some lid, none⟩
      | some assetRef =>
        ⟨containerErrors idx layer ++
           (validateEvents layer.events (layerBase idx ++ ".events")).1,
         rangeWarnings idx layer ++
           behaviorWarnings idx (normalizeBehaviors layer.behaviors),
         some lid,
         some (normalizedLayerOf layer lid assetRef idx)⟩

/-- `seen.add(layerId)` (the set grows only when the id checks passed). -/
def nextSeen (seen : List String) : Option String → List String
  | some i => seen ++ [i]
  | none => seen

/-- The indexed forEach over `input.layers`, threading the `seen` id set. -/
def validateLayers : Nat → List String → List LayerConfig →
    List ValidationIssue × List ValidationIssue × List LayerConfigNormalized
  | _, _, [] => ([], [], [])
  | idx, seen, l :: ls =>
    ((processLayer idx l seen).errors ++
       (validateLayers (idx + 1) (nextSeen seen (processLayer idx l seen).seenId) ls).1,
     (processLayer idx l seen).warnings ++
       (validateLayers (idx + 1) (nextSeen seen (processLayer idx l seen).seenId) ls).2.1,
     (processLayer idx l seen).norm.toList ++
       (validateLayers (idx + 1) (nextSeen seen (processLayer idx l seen).seenId) ls).2.2)

/-- Stage defaulting: width/height fall back to 2048 unless finite and
positive; origin falls back to `center`. -/
def normalizeStage (st : Option StageConfig) : StageConfigNormalized :=
  { width := if isNum (st.bind (·.width)) && decide (0 < numVal (st.bind (·.width))) then
        numVal (st.bind (·.width)) else DEFAULT_STAGE.width
    height := if isNum (st.bind (·.height)) && decide (0 < numVal (st.bind (·.height))) then
        numVal (st.bind (·.height)) else DEFAULT_STAGE.height
    origin := match st.bind (·.origin) with
      | some o => if isOrigin o then (if o == "top-left" then .topLeft else .center)
                  else DEFAULT_STAGE.origin
      | none => DEFAULT_STAGE.origin }

def stageWarningsOf (st : Option StageConfig) : List ValidationIssue :=
  match st.bind (·.origin) with
  | some o => if isOrigin o then [] else
      [⟨"stage.origin.invalid", "stage.origin",
        "unknown origin \"" ++ o ++ "\", fallback to \"center\"", .warning⟩]
  | none => []

/-- `validateLibraryConfig` (LayerValidator.ts). -/
def validateLibraryConfig (input : LibraryConfig) : ValidationResult :=
  match input.layers with
  | none =>
      ⟨false, [⟨"layers.missing", "layers", "layers must be an array", .error⟩],
       stageWarningsOf input.stage, none⟩
  | some ls =>
    if (validateLayers 0 [] ls).1 = [] then
      ⟨true, (validateLayers 0 [] ls).1,
       stageWarningsOf input.stage ++ (validateLayers 0 [] ls).2.1,
       some ⟨normalizeStage input.stage, (validateLayers 0 [] ls).2.2⟩⟩
    else
      ⟨false, (validateLayers 0 [] ls).1,
       stageWarningsOf input.stage ++ (validateLayers 0 [] ls).2.1, none⟩

end Layer

namespace Layer

/- ----------------------------------------------------------------
   Asset resolver (LayerImageResolver.ts).  The registry is the
   caller-owned `Map<string, AssetMeta>`; throwing is `Except.error`.
   ---------------------------------------------------------------- -/

structure AssetMeta where
  src : String
  width : JNum
  height : JNum
  anchor : Option JVec2 := none
  dpi : Option JNum := none
  deriving DecidableEq, Repr

abbrev Registry := List (String × AssetMeta)

def resolveAsset (ref : AssetRef) (registry : Registry) : Except String AssetMeta :=
  match ref with
  | .path p => .ok ⟨p, .nan, .nan, none, none⟩
  | .registry k =>
    match registry.lookup k with
    | none => .error ("registry key \"" ++ k ++ "\" not found")
    | some meta => .ok meta

/- ----------------------------------------------------------------
   Behavior functions (LayerLogicSpin/Orbit/Pulse/Fade), over ℝ.
   `timeSeconds` is a JS number (may be NaN/±∞); config fields are
   plain numbers per LayerTypes.ts.
   ---------------------------------------------------------------- -/

structure SpinConfig where
  enabled : Bool
  rpm : ℝ
  direction : Direction

/-- `OrbitConfig`; `direction` mirrors the source's untyped read
`(cfg as \x7bdirection?\x7d).direction ?? "cw"` — the typed interface has no
such field, so the validator always leaves it `none`. -/
structure OrbitConfig where
  enabled : Bool
  rpm : ℝ
  radius : ℝ
  center : Option RVec2
  direction : Option Direction := none

structure PulseConfig where
  enabled : Bool
  amplitude : ℝ
  rpm : ℝ

structure FadeConfig where
  enabled : Bool
  fromVal : ℝ
  toVal : ℝ
  rpm : ℝ

structure SpinState where
  angle : ℝ

structure OrbitState where
  position : RVec2

structure PulseState where
  scale : RVec2

structure FadeState where
  opacity : ℝ

noncomputable def applySpin (prev : SpinState) (cfg : SpinConfig) (timeSeconds : JReal) : SpinState :=
  if cfg.enabled = false ∨ cfg.rpm ≤ 0 ∨ timeSeconds.isFinite = false then
    ⟨prev.angle⟩
  else
    let deltaDeg := cfg.rpm * 360 * timeSeconds.val / 60
    let signed := if cfg.direction = .ccw then -deltaDeg else deltaDeg
    ⟨prev.angle + signed⟩

noncomputable def applyOrbit (prev : OrbitState) (cfg : OrbitConfig) (timeSeconds : JReal)
    (baseCenter : RVec2) : OrbitState :=
  if cfg.enabled = false ∨ cfg.rpm ≤ 0 ∨ cfg.radius ≤ 0 ∨ timeSeconds.isFinite = false then
    ⟨prev.position⟩
  else
    let center := cfg.center.getD baseCenter
    let thetaDeg := cfg.rpm * 360 * timeSeconds.val / 60
    let dir := cfg.direction.getD .cw
    let theta := (if dir = .ccw then -thetaDeg else thetaDeg) * (Real.pi / 180)
    ⟨⟨center.x + Real.cos theta * cfg.radius, center.y + Real.sin theta * cfg.radius⟩⟩

noncomputable def applyPulse (prev : PulseState) (cfg : PulseConfig) (timeSeconds : JReal) : PulseState :=
  if cfg.enabled = false ∨ cfg.rpm ≤ 0 ∨ cfg.amplitude ≤ 0 ∨ timeSeconds.isFinite = false then
    ⟨prev.scale⟩
  else
    let phase := 2 * Real.pi * cfg.rpm * timeSeconds.val / 60
    let s := 1 + cfg.amplitude * Real.sin phase
    ⟨⟨prev.scale.x * s, prev.scale.y * s⟩⟩

noncomputable def applyFade (prev : FadeState) (cfg : FadeConfig) (timeSeconds : JReal) : FadeState :=
  if cfg.enabled = false ∨ cfg.rpm ≤ 0 ∨ timeSeconds.isFinite = false then
    ⟨prev.opacity⟩
  else
    let phase := 2 * Real.pi * cfg.rpm * timeSeconds.val / 60
    let t01 := (Real.sin phase + 1) / 2
    let value := cfg.fromVal + (cfg.toVal - cfg.fromVal) * t01
    ⟨max 0 (min 1 value)⟩

/- ----------------------------------------------------------------
   Image/container fitting (LayerMappingImage.ts), over ℚ/JNum.
   ---------------------------------------------------------------- -/

structure ContainerSpec where
  width : Option JNum := none
  height : Option JNum := none
  fitMode : FitMode
  alignment : Alignment
  deriving DecidableEq, Repr

structure ImageMappingResult where
  displayWidth : ℚ
  displayHeight : ℚ
  offset : Vec2
  anchor : JVec2
  deriving DecidableEq, Repr

def alignmentOffset (alignment : Alignment) (cw ch : ℚ) : Vec2 :=
  let hx := cw / 2
  let hy := ch / 2
  match alignment with
  | .center => ⟨0, 0⟩
  | .top => ⟨0, -hy⟩
  | .bottom => ⟨0, hy⟩
  | .left => ⟨-hx, 0⟩
  | .right => ⟨hx, 0⟩
  | .topLeft => ⟨-hx, -hy⟩
  | .topRight => ⟨hx, -hy⟩
  | .bottomLeft => ⟨-hx, hy⟩
  | .bottomRight => ⟨hx, hy⟩

/-- Pass-through branch: natural size (non-finite dimensions become 0),
zero offset. -/
def passThroughResult (asset : AssetMeta) (finalAnchor : JVec2) : ImageMappingResult :=
  { displayWidth := if asset.width.isFinite then asset.width.val else 0
    displayHeight := if asset.height.isFinite then asset.height.val else 0
    offset := ⟨0, 0⟩
    anchor := finalAnchor }

/-- Display size for a fit mode: `stretch` uses the container size,
`contain`/`cover` scale the asset by min/max of the axis ratios. -/
def fitDims (fm : FitMode) (aw ah cwv chv : ℚ) : ℚ × ℚ :=
  if fm = .stretch then (cwv, chv)
  else
    let sx := cwv / aw
    let sy := chv / ah
    let s := if fm = .contain then min sx sy else max sx sy
    (aw * s, ah * s)

def mapImageIntoContainer (asset : AssetMeta) (container : Option ContainerSpec)
    (anchor : JVec2) : ImageMappingResult :=
  match container with
  | none => passThroughResult asset ((asset.anchor).getD anchor)
  | some c =>
    if c.width = none ∧ c.height = none then
      passThroughResult asset ((asset.anchor).getD anchor)
    else if !(isNum c.width) || !(isNum c.height) ||
            decide (numVal c.width ≤ 0) || decide (numVal c.height ≤ 0) then
      ⟨0, 0, ⟨0, 0⟩, (asset.anchor).getD anchor⟩
    else if !(asset.width.isFinite) || !(asset.height.isFinite) ||
            decide (asset.width.val ≤ 0) || decide (asset.height.val ≤ 0) then
      ⟨0, 0, ⟨0, 0⟩, (asset.anchor).getD anchor⟩
    else
      ⟨(fitDims c.fitMode asset.width.val asset.height.val (numVal c.width) (numVal c.height)).1,
       (fitDims c.fitMode asset.width.val asset.height.val (numVal c.width) (numVal c.height)).2,
       alignmentOffset c.alignment (numVal c.width) (numVal c.height),
       (asset.anchor).getD anchor⟩

/- ----------------------------------------------------------------
   Screen/stage coordinate mapping (LayerMappingScreen.ts), over ℚ.
   ---------------------------------------------------------------- -/

structure ScreenMapping where
  toCenter : Vec2 → Vec2
  toTopLeft : Vec2 → Vec2
  center : Vec2
  bounds : ℚ × ℚ

def createScreenMapping (stage : StageConfigNormalized) : ScreenMapping :=
  let half : Vec2 := ⟨stage.width / 2, stage.height / 2⟩
  { toCenter := fun p =>
      if stage.origin = .center then p else ⟨p.x - half.x, p.y - half.y⟩
    toTopLeft := fun p =>
      if stage.origin = .topLeft then p else ⟨p.x + half.x, p.y + half.y⟩
    center := if stage.origin = .center then ⟨0, 0⟩ else half
    bounds := (stage.width, stage.height) }

def defaultPlacement (stage : StageConfigNormalized) : Vec2 :=
  if stage.origin = .center then ⟨0, 0⟩ else ⟨stage.width / 2, stage.height / 2⟩

end Layer

namespace Layer

/- ----------------------------------------------------------------
   Producer (LayerProducer.ts) and composer (LayerPipeline.ts).
   ---------------------------------------------------------------- -/

structure ProcessingContext where
  stage : StageConfigNormalized
  time : JReal
  registry : Registry

structure BasicTransform where
  position : RVec2
  scale : RVec2
  angle : ℝ
  tilt : RVec2
  anchor : RVec2
  opacity : ℝ

noncomputable def applyBasicTransform (layer : LayerConfigNormalized)
    (_stage : StageConfigNormalized) : BasicTransform :=
  ⟨layer.position.toR, layer.scale.toR, (layer.angle : ℝ), layer.tilt.toR,
   layer.anchor.toR, (layer.opacity : ℝ)⟩

/-- Runtime view (ℝ) of a validator-normalized spin config. -/
noncomputable def SpinConfigQ.toR (c : SpinConfigQ) : SpinConfig :=
  ⟨c.enabled, (c.rpm : ℝ), c.direction⟩

/-- Runtime view (ℝ) of a validator-normalized orbit config; the
normalized config has no `direction` property, hence `none`. -/
noncomputable def OrbitConfigQ.toR (c : OrbitConfigQ) : OrbitConfig :=
  ⟨c.enabled, (c.rpm : ℝ), (c.radius : ℝ), c.center.map Vec2.toR, none⟩

noncomputable def PulseConfigQ.toR (c : PulseConfigQ) : PulseConfig :=
  ⟨c.enabled, (c.amplitude : ℝ), (c.rpm : ℝ)⟩

noncomputable def FadeConfigQ.toR (c : FadeConfigQ) : FadeConfig :=
  ⟨c.enabled, (c.fromVal : ℝ), (c.toVal : ℝ), (c.rpm : ℝ)⟩

structure LayerState where
  isHovered : Bool
  isPressed : Bool
  isActive : Bool
  isVisible : Prop

structure LayerData where
  id : String
  zIndex : Nat
  asset : AssetRef
  transform : BasicTransform
  container : Option ContainerNormalized
  behaviors : BehaviorsConfigNormalized
  events : EventHooksNormalized
  state : LayerState

structure ProduceResult where
  layers : List LayerData
  warnings : List String

/-- JS `Array.prototype.join`. -/
def joinStr (sep : String) : List String → String
  | [] => ""
  | [a] => a
  | a :: rest => a ++ sep ++ joinStr sep rest

/-- `res.errors.map(e => path: message).join("; ") || "invalid config"`. -/
def validationReason (res : ValidationResult) : String :=
  if joinStr "; " (res.errors.map (fun e => e.path ++ ": " ++ e.message)) = "" then
    "invalid config"
  else
    joinStr "; " (res.errors.map (fun e => e.path ++ ": " ++ e.message))

/-- The body of `produceLayers`' per-layer map (canonical pipeline):
basic transform, then spin → orbit → pulse → fade, `isVisible` left `True`. -/
noncomputable def produceLayerData (norm : LayerConfigNormalized) (idx : Nat)
    (ctx : ProcessingContext) (stage : StageConfigNormalized) : LayerData :=
  let basic := applyBasicTransform norm stage
  let spinRes := applySpin ⟨basic.angle⟩ norm.behaviors.spin.toR ctx.time
  let orbitRes := applyOrbit ⟨basic.position⟩ norm.behaviors.orbit.toR ctx.time basic.position
  let pulseRes := applyPulse ⟨basic.scale⟩ norm.behaviors.pulse.toR ctx.time
  let fadeRes := applyFade ⟨basic.opacity⟩ norm.behaviors.fade.toR ctx.time
  let finalTransform : BasicTransform :=
    ⟨orbitRes.position, pulseRes.scale, spinRes.angle, basic.tilt, basic.anchor, fadeRes.opacity⟩
  { id := norm.layerId, zIndex := idx, asset := norm.assetRef,
    transform := finalTransform, container := norm.container,
    behaviors := norm.behaviors, events := norm.events,
    state := ⟨false, false, false, True⟩ }

/-- The layers.map of `produceLayers`: resolve (throwing aborts all),
then build; first failure aborts the whole call. -/
noncomputable def producePass (ctx : ProcessingContext) (stage : StageConfigNormalized) :
    Nat → List LayerConfigNormalized → Except String (List LayerData)
  | _, [] => .ok []
  | idx, n :: ns =>
    match resolveAsset n.assetRef ctx.registry with
    | .error e => .error e
    | .ok _ =>
      match producePass ctx stage (idx + 1) ns with
      | .error e => .error e
      | .ok rest => .ok (produceLayerData n idx ctx stage :: rest)

/-- `produceLayers` (LayerProducer.ts). -/
noncomputable def produceLayers (input : LibraryConfig) (ctx : ProcessingContext) :
    Except String ProduceResult :=
  match (validateLibraryConfig input).normalized with
  | none =>
      .error ("produceLayers: validation failed: " ++
        validationReason (validateLibraryConfig input))
  | some n =>
    if (validateLibraryConfig input).ok = false then
      .error ("produceLayers: validation failed: " ++
        validationReason (validateLibraryConfig input))
    else
      match producePass ctx n.stage 0 n.layers with
      | .error e => .error e
      | .ok layers =>
          .ok ⟨layers,
               (validateLibraryConfig input).warnings.map
                 (fun w => w.path ++ ": " ++ w.message)⟩

/-- `normalizeInput` (LayerPipeline.ts): validate, throwing on failure. -/
def normalizeInput (input : LibraryConfig) :
    Except String (StageConfigNormalized × List LayerConfigNormalized × List String) :=
  match (validateLibraryConfig input).normalized with
  | none =>
      .error ("LayerPipeline: validation failed: " ++
        validationReason (validateLibraryConfig input))
  | some n =>
    if (validateLibraryConfig input).ok = false then
      .error ("LayerPipeline: validation failed: " ++
        validationReason (validateLibraryConfig input))
    else
      .ok (n.stage, n.layers,
           (validateLibraryConfig input).warnings.map
             (fun w => w.path ++ ": " ++ w.message))

structure ComposeOptions where
  doSpin : Bool
  doOrbit : Bool
  doPulse : Bool
  doFade : Bool

/-- `buildLayerData` (LayerPipeline.ts): same wrapper order, but each
wrapper only runs when selected, and `isVisible` is `opacity > 0`.
Note: it never resolves the layer's asset reference. -/
noncomputable def buildLayerData (norm : LayerConfigNormalized) (idx : Nat)
    (ctx : ProcessingContext) (options : ComposeOptions)
    (stage : StageConfigNormalized) : LayerData :=
  let basic := applyBasicTransform norm stage
  let spinRes := if options.doSpin then
      applySpin ⟨basic.angle⟩ norm.behaviors.spin.toR ctx.time
    else ⟨basic.angle⟩
  let orbitRes := if options.doOrbit then
      applyOrbit ⟨basic.position⟩ norm.behaviors.orbit.toR ctx.time basic.position
    else ⟨basic.position⟩
  let pulseRes := if options.doPulse then
      applyPulse ⟨basic.scale⟩ norm.behaviors.pulse.toR ctx.time
    else ⟨basic.scale⟩
  let fadeRes := if options.doFade then
      applyFade ⟨basic.opacity⟩ norm.behaviors.fade.toR ctx.time
    else ⟨basic.opacity⟩
  let finalTransform : BasicTransform :=
    ⟨orbitRes.position, pulseRes.scale, spinRes.angle, basic.tilt, basic.anchor, fadeRes.opacity⟩
  { id := norm.layerId, zIndex := idx, asset := norm.assetRef,
    transform := finalTransform, container := norm.container,
    behaviors := norm.behaviors, events := norm.events,
    state := ⟨false, false, false, 0 < finalTransform.opacity⟩ }

inductive Wrapper where
  | spin
  | orbit
  | pulse
  | fade
  deriving DecidableEq, Repr

/-- `compose` (LayerPipeline.ts): the `Set` of requested wrappers becomes
membership tests, deduplicating repeated selections. -/
noncomputable def compose (wrappers : List Wrapper) :
    LibraryConfig → ProcessingContext → Except String ProduceResult :=
  fun input ctx =>
    match normalizeInput input with
    | .error e => .error e
    | .ok (stage, layers, warnings) =>
      .ok ⟨layers.mapIdx (fun idx n => buildLayerData n idx ctx
             ⟨wrappers.contains .spin, wrappers.contains .orbit,
              wrappers.contains .pulse, wrappers.contains .fade⟩ stage),
           warnings⟩

noncomputable def produceBasic (input : LibraryConfig) (ctx : ProcessingContext) :
    Except String ProduceResult :=
  match normalizeInput input with
  | .error e => .error e
  | .ok (stage, layers, warnings) =>
    .ok ⟨layers.mapIdx (fun idx n => buildLayerData n idx ctx ⟨false, false, false, false⟩ stage),
         warnings⟩

noncomputable def produceBasicSpin (input : LibraryConfig) (ctx : ProcessingContext) :
    Except String ProduceResult :=
  match normalizeInput input with
  | .error e => .error e
  | .ok (stage, layers, warnings) =>
    .ok ⟨layers.mapIdx (fun idx n => buildLayerData n idx ctx ⟨true, false, false, false⟩ stage),
         warnings⟩

noncomputable def produceBasicOrbit (input : LibraryConfig) (ctx : ProcessingContext) :
    Except String ProduceResult :=
  match normalizeInput input with
  | .error e => .error e
  | .ok (stage, layers, warnings) =>
    .ok ⟨layers.mapIdx (fun idx n => buildLayerData n idx ctx ⟨false, true, false, false⟩ stage),
         warnings⟩

noncomputable def produceBasicPulse (input : LibraryConfig) (ctx : ProcessingContext) :
    Except String ProduceResult :=
  match normalizeInput input with
  | .error e => .error e
  | .ok (stage, layers, warnings) =>
    .ok ⟨layers.mapIdx (fun idx n => buildLayerData n idx ctx ⟨false, false, true, false⟩ stage),
         warnings⟩

noncomputable def produceBasicFade (input : LibraryConfig) (ctx : ProcessingContext) :
    Except String ProduceResult :=
  match normalizeInput input with
  | .error e => .error e
  | .ok (stage, layers, warnings) =>
    .ok ⟨layers.mapIdx (fun idx n => buildLayerData n idx ctx ⟨false, false, false, true⟩ stage),
         warnings⟩

noncomputable def produceFull := produceLayers

/-- Constructor test on `Except` (did the call complete without throwing). -/
def exceptIsOk {ε α : Type} : Except ε α → Bool
  | .ok _ => true
  | .error _ => false

end Layer

namespace Layer

/- Statement helpers. -/

/-- A registry-type asset reference whose key is absent from the registry. -/
def refMissing (r : AssetRef) (reg : Registry) : Bool :=
  match r with
  | .registry k => (reg.lookup k).isNone
  | .path _ => false

/-- Normalized layers of a validation result (empty when rejected). -/
def normLayersOf (res : ValidationResult) : List LayerConfigNormalized :=
  match res.normalized with
  | some n => n.layers
  | none => []

/-- A finite, strictly positive JS number. -/
def finPosB (n : JNum) : Bool := n.isFinite && decide (0 < n.val)

/-- A present, finite, strictly positive optional JS number. -/
def optFinPosB (o : Option JNum) : Bool := isNum o && decide (0 < numVal o)

end Layer

namespace Layer

/- ================================================================
   Claim theorems.
   ================================================================ -/

/-- C7: each behavior function is a no-op (returns `prev` unchanged)
whenever the behavior is disabled, its rpm is ≤ 0 (additionally radius ≤ 0
for orbit, amplitude ≤ 0 for pulse), or the elapsed-seconds argument is
not a finite number — for every `prev` and every such config. -/
theorem behaviors_noop_guards :
    (∀ (prev : SpinState) (cfg : SpinConfig) (t : JReal),
        cfg.enabled = false ∨ cfg.rpm ≤ 0 ∨ t.isFinite = false →
        applySpin prev cfg t = prev) ∧
    (∀ (prev : OrbitState) (cfg : OrbitConfig) (t : JReal) (baseCenter : RVec2),
        cfg.enabled = false ∨ cfg.rpm ≤ 0 ∨ cfg.radius ≤ 0 ∨ t.isFinite = false →
        applyOrbit prev cfg t baseCenter = prev) ∧
    (∀ (prev : PulseState) (cfg : PulseConfig) (t : JReal),
        cfg.enabled = false ∨ cfg.rpm ≤ 0 ∨ cfg.amplitude ≤ 0 ∨ t.isFinite = false →
        applyPulse prev cfg t = prev) ∧
    (∀ (prev : FadeState) (cfg : FadeConfig) (t : JReal),
        cfg.enabled = false ∨ cfg.rpm ≤ 0 ∨ t.isFinite = false →
        applyFade prev cfg t = prev) := by
  refine ⟨?_, ?_, ?_, ?_⟩
  · intro prev cfg t h
    unfold applySpin
    rw [if_pos h]
  · intro prev cfg t baseCenter h
    unfold applyOrbit
    rw [if_pos h]
  · intro prev cfg t h
    unfold applyPulse
    rw [if_pos h]
  · intro prev cfg t h
    unfold applyFade
    rw [if_pos h]

/-- Witness for C7: concrete no-op instances — disabled spin, orbit with
radius 0, pulse with amplitude 0, fade at non-finite time. -/
theorem behaviors_noop_guards_witness :
    applySpin ⟨5⟩ ⟨false, 3, .cw⟩ (.fin 1) = ⟨5⟩ ∧
    applyOrbit ⟨⟨1, 2⟩⟩ ⟨true, 2, 0, none, none⟩ (.fin 1) ⟨0, 0⟩ = ⟨⟨1, 2⟩⟩ ∧
    applyPulse ⟨⟨1, 1⟩⟩ ⟨true, 0, 5⟩ (.fin 2) = ⟨⟨1, 1⟩⟩ ∧
    applyFade ⟨(1 : ℝ) / 2⟩ ⟨true, 0, 1, 5⟩ .nan = ⟨(1 : ℝ) / 2⟩ :=
  ⟨behaviors_noop_guards.1 _ _ _ (Or.inl rfl),
   behaviors_noop_guards.2.1 _ _ _ _ (Or.inr (Or.inr (Or.inl le_rfl))),
   behaviors_noop_guards.2.2.1 _ _ _ (Or.inr (Or.inr (Or.inl le_rfl))),
   behaviors_noop_guards.2.2.2 _ _ _ (Or.inr (Or.inr rfl))⟩

/-- C8: for every enabled orbit with rpm > 0, radius > 0 and finite time,
`applyOrbit` returns the absolute position `center + radius·(cos θ, sin θ)`
with `θ = ±(rpm·360·t/60)` in radians (clockwise positive) and
`center = config.center ?? baseCenter`, independent of `prev`; at `t = 0`
the result is `center + (radius, 0)`. -/
theorem applyOrbit_formula :
    ∀ (prev : OrbitState) (cfg : OrbitConfig) (t : JReal) (baseCenter : RVec2),
      cfg.enabled = true → 0 < cfg.rpm → 0 < cfg.radius → t.isFinite = true →
      ((applyOrbit prev cfg t baseCenter).position.x =
          (cfg.center.getD baseCenter).x +
            cfg.radius * Real.cos ((if cfg.direction.getD .cw = .ccw then
                -(cfg.rpm * 360 * t.val / 60) else cfg.rpm * 360 * t.val / 60) *
              (Real.pi / 180)) ∧
       (applyOrbit prev cfg t baseCenter).position.y =
          (cfg.center.getD baseCenter).y +
            cfg.radius * Real.sin ((if cfg.direction.getD .cw = .ccw then
                -(cfg.rpm * 360 * t.val / 60) else cfg.rpm * 360 * t.val / 60) *
              (Real.pi / 180))) ∧
      (∀ prev2, applyOrbit prev cfg t baseCenter = applyOrbit prev2 cfg t baseCenter) ∧
      (t = .fin 0 →
        (applyOrbit prev cfg t baseCenter).position.x =
            (cfg.center.getD baseCenter).x + cfg.radius ∧
        (applyOrbit prev cfg t baseCenter).position.y = (cfg.center.getD baseCenter).y) := by
  intro prev cfg t baseCenter hen hrpm hrad hfin
  have hno : ¬(cfg.enabled = false ∨ cfg.rpm ≤ 0 ∨ cfg.radius ≤ 0 ∨ t.isFinite = false) := by
    push_neg
    refine ⟨by simp [hen], by simpa using hrpm, by simpa using hrad, by simp [hfin]⟩
  refine ⟨?_, ?_, ?_⟩
  · unfold applyOrbit
    rw [if_neg hno]
    constructor <;> ring
  · intro prev2
    unfold applyOrbit
    rw [if_neg hno, if_neg hno]
  · rintro rfl
    unfold applyOrbit
    rw [if_neg hno]
    have hv : (JsVal.fin (0 : ℝ)).val = 0 := rfl
    rcases h : cfg.direction.getD .cw with _ | _ <;>
      simp [h, hv, Real.cos_zero, Real.sin_zero]

/-- Witness for C8: `{enabled, rpm:60, radius:100}`, `baseCenter=(0,0)`,
`t=0.25` gives a quarter clockwise turn to `(0, 100)`, regardless of
`prev.position = (5, 7)`. -/
theorem applyOrbit_formula_witness :
    (applyOrbit ⟨⟨5, 7⟩⟩ ⟨true, 60, 100, none, none⟩ (.fin (1 / 4)) ⟨0, 0⟩).position.x = 0 ∧
    (applyOrbit ⟨⟨5, 7⟩⟩ ⟨true, 60, 100, none, none⟩ (.fin (1 / 4)) ⟨0, 0⟩).position.y = 100 := by
  obtain ⟨⟨hx, hy⟩, -, -⟩ :=
    applyOrbit_formula ⟨⟨5, 7⟩⟩ ⟨true, 60, 100, none, none⟩ (.fin (1 / 4)) ⟨0, 0⟩
      rfl (by norm_num) (by norm_num) rfl
  rw [hx, hy]
  have hdir : ((⟨true, 60, 100, none, none⟩ : OrbitConfig).direction.getD .cw) = Direction.cw := rfl
  rw [hdir]
  rw [if_neg (by decide : ¬(Direction.cw = Direction.ccw))]
  have hval : (JsVal.fin ((1 : ℝ) / 4)).val = (1 : ℝ) / 4 := rfl
  have hθ : ((⟨true, 60, 100, none, none⟩ : OrbitConfig).rpm * 360 *
      (JsVal.fin ((1 : ℝ) / 4)).val / 60) * (Real.pi / 180) = Real.pi / 2 := by
    show ((60 : ℝ) * 360 * (JsVal.fin ((1 : ℝ) / 4)).val / 60) * (Real.pi / 180) = Real.pi / 2
    rw [hval]; ring
  rw [hθ, Real.cos_pi_div_two, Real.sin_pi_div_two]
  norm_num

/-- C10: `toTopLeft(p) = toCenter(p) + (width/2, height/2)` for every stage
and point; both conversions read `p` in the stage's authored origin frame
(`toCenter` is the identity on a center-origin stage, `toTopLeft` the
identity on a top-left-origin stage), so the two maps are not mutual
inverses. -/
theorem screen_mapping_relation :
    ∀ (stage : StageConfigNormalized) (p : Vec2),
      ((createScreenMapping stage).toTopLeft p).x =
          ((createScreenMapping stage).toCenter p).x + stage.width / 2 ∧
      ((createScreenMapping stage).toTopLeft p).y =
          ((createScreenMapping stage).toCenter p).y + stage.height / 2 ∧
      (stage.origin = .center → (createScreenMapping stage).toCenter p = p) ∧
      (stage.origin = .topLeft → (createScreenMapping stage).toTopLeft p = p) ∧
      ¬(∀ (s : StageConfigNormalized) (q : Vec2),
          (createScreenMapping s).toCenter ((createScreenMapping s).toTopLeft q) = q) := by
  intro stage p
  have hni : ¬(∀ (s : StageConfigNormalized) (q : Vec2),
      (createScreenMapping s).toCenter ((createScreenMapping s).toTopLeft q) = q) := by
    intro hall
    have h2 := hall ⟨2048, 2048, .center⟩ ⟨0, 0⟩
    simp [createScreenMapping, Vec2.mk.injEq] at h2
  rcases stage with ⟨w, h, o⟩
  refine ⟨?_, ?_, ?_, ?_, hni⟩
  · cases o <;> simp [createScreenMapping]
  · cases o <;> simp [createScreenMapping]
  · intro hco
    cases o
    · simp [createScreenMapping]
    · cases hco
  · intro hco
    cases o
    · cases hco
    · simp [createScreenMapping]

/-- Witness for C10 on a concrete center-origin stage and point. -/
theorem screen_mapping_relation_witness :
    ((createScreenMapping ⟨100, 200, .center⟩).toCenter ⟨3, 4⟩) = ⟨3, 4⟩ ∧
    ((createScreenMapping ⟨100, 200, .center⟩).toTopLeft ⟨3, 4⟩).x =
      ((createScreenMapping ⟨100, 200, .center⟩).toCenter ⟨3, 4⟩).x + 50 := by
  obtain ⟨hx, _, hc, _, _⟩ := screen_mapping_relation ⟨100, 200, .center⟩ ⟨3, 4⟩
  refine ⟨hc rfl, ?_⟩
  rw [hx]
  norm_num

/-- C9 (amended): with an attached container carrying both dimensions and
all dimensions finite and positive, `stretch` uses the container size,
`contain` scales the asset by `min(containerW/assetW, containerH/assetH)`
and `cover` by the max of the same ratios; and whenever a container with at
least one specified dimension is present but asset or container dimensions
are non-finite or non-positive (including a single given container
dimension), the result is zero size with zero offset.  The function is
total (never throws).  Without such a container the asset's natural size
passes through (only non-finite components are zeroed). -/
theorem mapImageIntoContainer_contract :
    (∀ (asset : AssetMeta) (c : ContainerSpec) (anchor : JVec2) (aw ah cw ch : ℚ),
      asset.width = .fin aw → asset.height = .fin ah →
      c.width = some (.fin cw) → c.height = some (.fin ch) →
      0 < aw → 0 < ah → 0 < cw → 0 < ch →
      (c.fitMode = .stretch →
        (mapImageIntoContainer asset (some c) anchor).displayWidth = cw ∧
        (mapImageIntoContainer asset (some c) anchor).displayHeight = ch) ∧
      (c.fitMode = .contain →
        (mapImageIntoContainer asset (some c) anchor).displayWidth =
            aw * min (cw / aw) (ch / ah) ∧
        (mapImageIntoContainer asset (some c) anchor).displayHeight =
            ah * min (cw / aw) (ch / ah)) ∧
      (c.fitMode = .cover →
        (mapImageIntoContainer asset (some c) anchor).displayWidth =
            aw * max (cw / aw) (ch / ah) ∧
        (mapImageIntoContainer asset (some c) anchor).displayHeight =
            ah * max (cw / aw) (ch / ah))) ∧
    (∀ (asset : AssetMeta) (c : ContainerSpec) (anchor : JVec2),
      (c.width ≠ none ∨ c.height ≠ none) →
      (finPosB asset.width = false ∨ finPosB asset.height = false ∨
       optFinPosB c.width = false ∨ optFinPosB c.height = false) →
      mapImageIntoContainer asset (some c) anchor =
        ⟨0, 0, ⟨0, 0⟩, asset.anchor.getD anchor⟩) := by
  constructor
  · intro asset c anchor aw ah cw ch hw hh hcw hch h1 h2 h3 h4
    have hne : ¬(c.width = none ∧ c.height = none) := by
      rw [hcw]
      rintro ⟨h, -⟩
      cases h
    have hbody : mapImageIntoContainer asset (some c) anchor =
        ⟨(fitDims c.fitMode asset.width.val asset.height.val
            (numVal c.width) (numVal c.height)).1,
         (fitDims c.fitMode asset.width.val asset.height.val
            (numVal c.width) (numVal c.height)).2,
         alignmentOffset c.alignment (numVal c.width) (numVal c.height),
         asset.anchor.getD anchor⟩ := by
      rw [mapImageIntoContainer]
      rw [if_neg hne]
      rw [if_neg (by
        simp [hcw, hch, isNum, JsVal.isFinite, numVal, JsVal.val, not_le]
        constructor <;> positivity)]
      rw [if_neg (by
        simp [hw, hh, JsVal.isFinite, JsVal.val, not_le]
        constructor <;> positivity)]
    rw [hbody]
    rw [hcw, hch, hw, hh]
    refine ⟨fun hf => ?_, fun hf => ?_, fun hf => ?_⟩ <;>
      simp [hf, fitDims, numVal, JsVal.val]
  · intro asset c anchor hone hbad
    have hne : ¬(c.width = none ∧ c.height = none) := by
      rintro ⟨ha, hb⟩
      rcases hone with h | h
      · exact h ha
      · exact h hb
    rw [mapImageIntoContainer]
    rw [if_neg hne]
    by_cases hc2 : (!(isNum c.width) || !(isNum c.height) ||
        decide (numVal c.width ≤ 0) || decide (numVal c.height ≤ 0)) = true
    · rw [if_pos hc2]
    · rw [if_neg hc2]
      by_cases hc3 : (!(asset.width.isFinite) || !(asset.height.isFinite) ||
          decide (asset.width.val ≤ 0) || decide (asset.height.val ≤ 0)) = true
      · rw [if_pos hc3]
      · exfalso
        simp only [Bool.or_eq_true, Bool.not_eq_true', decide_eq_true_eq, not_or,
          Bool.not_eq_false, not_le] at hc2 hc3
        obtain ⟨⟨⟨hw1, hh1⟩, hw2⟩, hh2⟩ := hc2
        obtain ⟨⟨⟨ha1, ha2⟩, ha3⟩, ha4⟩ := hc3
        rcases hbad with h | h | h | h
        · rw [finPosB, ha1, decide_eq_true ha3] at h
          cases h
        · rw [finPosB, ha2, decide_eq_true ha4] at h
          cases h
        · rw [optFinPosB, hw1, decide_eq_true hw2] at h
          cases h
        · rw [optFinPosB, hh1, decide_eq_true hh2] at h
          cases h

/-- Witness for C9: a 100×50 asset in a 200×200 `contain` box gives
200×100, and a container with only one given dimension fails closed. -/
theorem mapImageIntoContainer_contract_witness :
    (mapImageIntoContainer ⟨"s", .fin 100, .fin 50, none, none⟩
        (some ⟨some (.fin 200), some (.fin 200), .contain, .center⟩)
        ⟨.fin 0, .fin 0⟩).displayWidth = 200 ∧
    (mapImageIntoContainer ⟨"s", .fin 100, .fin 50, none, none⟩
        (some ⟨some (.fin 200), some (.fin 200), .contain, .center⟩)
        ⟨.fin 0, .fin 0⟩).displayHeight = 100 ∧
    mapImageIntoContainer ⟨"s", .fin 100, .fin 50, none, none⟩
        (some ⟨some (.fin 5), none, .cover, .center⟩) ⟨.fin 0, .fin 0⟩ =
      ⟨0, 0, ⟨0, 0⟩, ⟨.fin 0, .fin 0⟩⟩ := by
  obtain ⟨-, hc, -⟩ := mapImageIntoContainer_contract.1 ⟨"s", .fin 100, .fin 50, none, none⟩
      ⟨some (.fin 200), some (.fin 200), .contain, .center⟩ ⟨.fin 0, .fin 0⟩ 100 50 200 200
      rfl rfl rfl rfl (by norm_num) (by norm_num) (by norm_num) (by norm_num)
  obtain ⟨h1, h2⟩ := hc rfl
  refine ⟨?_, ?_, ?_⟩
  · rw [h1]
    rw [min_def]
    norm_num
  · rw [h2]
    rw [min_def]
    norm_num
  · exact mapImageIntoContainer_contract.2 ⟨"s", .fin 100, .fin 50, none, none⟩
      ⟨some (.fin 5), none, .cover, .center⟩ ⟨.fin 0, .fin 0⟩
      (Or.inl (by simp)) (Or.inr (Or.inr (Or.inr rfl)))

/-- Counterexample for C9 as frozen: with no container and a finite
negative asset width, the function passes the width through (−5), so a
non-positive asset dimension does NOT yield zero size. -/
theorem mapImage_failclosed_counterexample :
    (mapImageIntoContainer ⟨"s", .fin (-5), .fin 7, none, none⟩ none
        ⟨.fin 0, .fin 0⟩).displayWidth = -5 ∧
    ¬((mapImageIntoContainer ⟨"s", .fin (-5), .fin 7, none, none⟩ none
        ⟨.fin 0, .fin 0⟩).displayWidth = 0 ∧
      (mapImageIntoContainer ⟨"s", .fin (-5), .fin 7, none, none⟩ none
        ⟨.fin 0, .fin 0⟩).displayHeight = 0) := by
  decide

/-- Branch analysis of `validateLibraryConfig`: success is exactly "no
errors", and `normalized` is present exactly on success. -/
theorem validateLibraryConfig_cases (input : LibraryConfig) :
    ((validateLibraryConfig input).errors = [] →
      (validateLibraryConfig input).ok = true ∧
      ∃ ls, input.layers = some ls ∧
        (validateLibraryConfig input).normalized =
          some ⟨normalizeStage input.stage, (validateLayers 0 [] ls).2.2⟩ ∧
        (validateLayers 0 [] ls).1 = []) ∧
    ((validateLibraryConfig input).errors ≠ [] →
      (validateLibraryConfig input).ok = false ∧
      (validateLibraryConfig input).normalized = none) ∧
    ((validateLibraryConfig input).ok = true →
      (validateLibraryConfig input).errors = []) := by
  rcases hL : input.layers with _ | ls
  · refine ⟨?_, ?_, ?_⟩ <;> simp [validateLibraryConfig, hL]
  · by_cases h : (validateLayers 0 [] ls).1 = [] <;>
      refine ⟨?_, ?_, ?_⟩ <;>
      simp [validateLibraryConfig, hL, h]

/-- C1: validation is atomic — any recorded error forces `ok = false` with
`normalized` absent, however many layers were individually valid; zero
errors force `ok = true` with `normalized` present, even in the presence
of warnings (warnings never block success). -/
theorem validation_atomic :
    ∀ (input : LibraryConfig),
      ((validateLibraryConfig input).errors ≠ [] →
        (validateLibraryConfig input).ok = false ∧
        (validateLibraryConfig input).normalized = none) ∧
      ((validateLibraryConfig input).errors = [] →
        (validateLibraryConfig input).ok = true ∧
        (validateLibraryConfig input).normalized.isSome = true) := by
  intro input
  obtain ⟨hnil, hne, -⟩ := validateLibraryConfig_cases input
  refine ⟨hne, fun h => ?_⟩
  obtain ⟨hok, ls, -, hnorm, -⟩ := hnil h
  exact ⟨hok, by rw [hnorm]; rfl⟩

/-- Witness for C1: a config with one invalid and one valid layer is
rejected wholesale (`normalized` absent); a config whose only issue is an
out-of-range opacity warning succeeds with `normalized` present. -/
theorem validation_atomic_witness :
    ((validateLibraryConfig
        ⟨none, some [{}, { layerId := some "a", imagePath := some "p" }]⟩).errors ≠ [] ∧
     (validateLibraryConfig
        ⟨none, some [{}, { layerId := some "a", imagePath := some "p" }]⟩).ok = false ∧
     (validateLibraryConfig
        ⟨none, some [{}, { layerId := some "a", imagePath := some "p" }]⟩).normalized = none) ∧
    ((validateLibraryConfig
        ⟨none, some [{ layerId := some "a", imagePath := some "p",
                       opacity := some (.fin 2) }]⟩).errors = [] ∧
     (validateLibraryConfig
        ⟨none, some [{ layerId := some "a", imagePath := some "p",
                       opacity := some (.fin 2) }]⟩).warnings ≠ [] ∧
     (validateLibraryConfig
        ⟨none, some [{ layerId := some "a", imagePath := some "p",
                       opacity := some (.fin 2) }]⟩).ok = true ∧
     (validateLibraryConfig
        ⟨none, some [{ layerId := some "a", imagePath := some "p",
                       opacity := some (.fin 2) }]⟩).normalized.isSome = true) := by
  refine ⟨⟨by decide, (validation_atomic _).1 (by decide)⟩,
          ⟨by decide, by decide, (validation_atomic _).2 (by decide)⟩⟩

/-- Each "path: message" string is nonempty (it contains ": "). -/
theorem pathMsg_ne_empty (e : ValidationIssue) : e.path ++ ": " ++ e.message ≠ "" := by
  intro h
  have hlen := congrArg String.length h
  rw [String.length_append, String.length_append] at hlen
  have h2 : (": ").length = 2 := rfl
  have h0 : ("" : String).length = 0 := rfl
  rw [h2, h0] at hlen
  omega

/-- `join("; ")` of a list with a nonempty head is nonempty. -/
theorem joinStr_cons_ne_empty (x : String) (xs : List String) (hx : x ≠ "") :
    joinStr "; " (x :: xs) ≠ "" := by
  cases xs with
  | nil => simpa [joinStr] using hx
  | cons y ys =>
    have hj : joinStr "; " (x :: y :: ys) = x ++ "; " ++ joinStr "; " (y :: ys) := rfl
    rw [hj]
    intro h
    have hlen := congrArg String.length h
    rw [String.length_append, String.length_append] at hlen
    have h2 : ("; ").length = 2 := rfl
    have h0 : ("" : String).length = 0 := rfl
    rw [h2, h0] at hlen
    omega

/-- On a rejected config the thrown reason is exactly the joined
"path: message" pairs (the `|| "invalid config"` fallback never fires). -/
theorem validationReason_of_errors (res : ValidationResult) (hne : res.errors ≠ []) :
    validationReason res =
      joinStr "; " (res.errors.map (fun e => e.path ++ ": " ++ e.message)) := by
  rcases herr : res.errors with _ | ⟨e, rest⟩
  · exact absurd herr hne
  · rw [validationReason, herr]
    rw [if_neg]
    simp only [List.map_cons]
    exact joinStr_cons_ne_empty _ _ (pathMsg_ne_empty e)

/-- C5 (amended): on every rejected config, `produceLayers` throws an
`Error` whose message is exactly `"produceLayers: validation failed: "`
followed by the validation errors' "path: message" pairs joined by "; "
(the spec's claimed message lacks the `"produceLayers: "` prefix). -/
theorem produceLayers_error_message :
    ∀ (input : LibraryConfig) (ctx : ProcessingContext),
      (validateLibraryConfig input).errors ≠ [] →
      produceLayers input ctx =
        .error ("produceLayers: validation failed: " ++
          joinStr "; " ((validateLibraryConfig input).errors.map
            (fun e => e.path ++ ": " ++ e.message))) := by
  intro input ctx herr
  obtain ⟨-, hne, -⟩ := validateLibraryConfig_cases input
  obtain ⟨-, hnorm⟩ := hne herr
  rw [produceLayers, hnorm, validationReason_of_errors _ herr]

/-- Witness for C5 (amended) at a concrete invalid config. -/
theorem produceLayers_error_message_witness :
    produceLayers ⟨none, some [{}]⟩ ⟨⟨2048, 2048, .center⟩, .fin 0, []⟩ =
      .error "produceLayers: validation failed: layers[0].layerId: layerId required" := by
  have h := produceLayers_error_message ⟨none, some [{}]⟩
      ⟨⟨2048, 2048, .center⟩, .fin 0, []⟩ (by decide)
  rw [h]
  rfl

/-- Counterexample for C5 as frozen: the actual message carries a
`"produceLayers: "` prefix, so it is not exactly
`"validation failed: <path>: <message>"`. -/
theorem produceLayers_error_message_counterexample :
    produceLayers ⟨none, some [{}]⟩ ⟨⟨2048, 2048, .center⟩, .fin 0, []⟩ ≠
      .error "validation failed: layers[0].layerId: layerId required" := by
  intro h
  have h1 : produceLayers ⟨none, some [{}]⟩ ⟨⟨2048, 2048, .center⟩, .fin 0, []⟩ =
      .error "produceLayers: validation failed: layers[0].layerId: layerId required" := rfl
  rw [h1] at h
  injection h with h2
  exact absurd h2 (by decide)

/-- The producer's per-layer pass throws the resolver's error for the
first layer whose registry key is absent. -/
theorem producePass_error_of_missing (ctx : ProcessingContext)
    (stage : StageConfigNormalized) :
    ∀ (ls : List LayerConfigNormalized) (idx : Nat),
      (∃ nl ∈ ls, refMissing nl.assetRef ctx.registry = true) →
      ∃ k, ctx.registry.lookup k = none ∧
        producePass ctx stage idx ls =
          .error ("registry key \"" ++ k ++ "\" not found") := by
  intro ls
  induction ls with
  | nil =>
    rintro idx ⟨nl, h, -⟩
    cases h
  | cons n ns ih =>
    rintro idx ⟨nl, hmem, hmiss⟩
    by_cases hn : refMissing n.assetRef ctx.registry = true
    · rcases href : n.assetRef with p | k
      · rw [href, refMissing] at hn
        cases hn
      · rw [href, refMissing] at hn
        have hlk : ctx.registry.lookup k = none := by
          simpa [Option.isNone_iff_eq_none] using hn
        refine ⟨k, hlk, ?_⟩
        rw [producePass, href, resolveAsset, hlk]
    · have hmiss' : ∃ nl ∈ ns, refMissing nl.assetRef ctx.registry = true := by
        rcases List.mem_cons.mp hmem with rfl | hmem'
        · exact absurd hmiss hn
        · exact ⟨nl, hmem', hmiss⟩
      obtain ⟨k, hlk, herr⟩ := ih (idx + 1) hmiss'
      refine ⟨k, hlk, ?_⟩
      rcases href : n.assetRef with p | k2
      · rw [producePass, href, resolveAsset, herr]
      · have hsome : ∃ m, ctx.registry.lookup k2 = some m := by
          rw [href, refMissing] at hn
          rcases hm : ctx.registry.lookup k2 with _ | m
          · rw [hm] at hn
            cases hn rfl
          · exact ⟨m, rfl⟩
        obtain ⟨m, hm⟩ := hsome
        rw [producePass, href, resolveAsset, hm, herr]

/-- `normalizeInput` succeeds exactly when validation does. -/
theorem normalizeInput_ok (input : LibraryConfig)
    (h : (validateLibraryConfig input).ok = true) :
    ∃ v, normalizeInput input = .ok v := by
  obtain ⟨hnil, -, hoknil⟩ := validateLibraryConfig_cases input
  obtain ⟨-, ls, -, hnorm, -⟩ := hnil (hoknil h)
  refine ⟨(normalizeStage input.stage, (validateLayers 0 [] ls).2.2,
           (validateLibraryConfig input).warnings.map
             (fun w => w.path ++ ": " ++ w.message)), ?_⟩
  rw [normalizeInput, hnorm]
  simp [h]

/-- A composed pipeline never throws after successful validation: it does
not resolve asset references at all. -/
theorem compose_ok_of_valid (ws : List Wrapper) (input : LibraryConfig)
    (ctx : ProcessingContext) (h : (validateLibraryConfig input).ok = true) :
    exceptIsOk (compose ws input ctx) = true := by
  obtain ⟨v, hv⟩ := normalizeInput_ok input h
  simp only [compose, hv]
  rfl

/-- C2 (amended): after successful validation, `produceLayers` throws
`Error('registry key "<key>" not found')` whenever some layer's registry
key is absent (aborting with zero emitted layers), but a composer-built
pipeline `compose(wrappers)` never resolves assets and completes without
throwing on the very same inputs. -/
theorem registry_missing_behavior :
    ∀ (input : LibraryConfig) (ctx : ProcessingContext),
      (validateLibraryConfig input).ok = true →
      (∃ nl ∈ normLayersOf (validateLibraryConfig input),
          refMissing nl.assetRef ctx.registry = true) →
      (∃ k, ctx.registry.lookup k = none ∧
        produceLayers input ctx =
          .error ("registry key \"" ++ k ++ "\" not found")) ∧
      (∀ ws, exceptIsOk (compose ws input ctx) = true) := by
  intro input ctx hok hmiss
  obtain ⟨hnil, -, hoknil⟩ := validateLibraryConfig_cases input
  obtain ⟨-, ls, -, hnorm, -⟩ := hnil (hoknil hok)
  refine ⟨?_, fun ws => compose_ok_of_valid ws input ctx hok⟩
  have hmiss' : ∃ nl ∈ (validateLayers 0 [] ls).2.2,
      refMissing nl.assetRef ctx.registry = true := by
    rw [normLayersOf, hnorm] at hmiss
    simpa using hmiss
  obtain ⟨k, hlk, herr⟩ :=
    producePass_error_of_missing ctx (normalizeStage input.stage)
      ((validateLayers 0 [] ls).2.2) 0 hmiss'
  refine ⟨k, hlk, ?_⟩
  rw [produceLayers, hnorm]
  dsimp only
  rw [if_neg (by simp [hok]), herr]

/-- Witness for C2 (amended): a valid single-layer config whose registry
key is absent from an empty registry. -/
theorem registry_missing_behavior_witness :
    (∃ k, (([] : Registry).lookup k) = none ∧
      produceLayers ⟨none, some [{ layerId := some "a", registryKey := some "k" }]⟩
          ⟨⟨2048, 2048, .center⟩, .fin 0, []⟩ =
        .error ("registry key \"" ++ k ++ "\" not found")) ∧
    (∀ ws, exceptIsOk (compose ws
        ⟨none, some [{ layerId := some "a", registryKey := some "k" }]⟩
        ⟨⟨2048, 2048, .center⟩, .fin 0, []⟩) = true) :=
  registry_missing_behavior
    ⟨none, some [{ layerId := some "a", registryKey := some "k" }]⟩
    ⟨⟨2048, 2048, .center⟩, .fin 0, []⟩ (by decide) (by decide)

/-- Counterexample for C2 as frozen: on that same valid config with the
key missing, the composed pipeline `compose [spin]` completes with `.ok`
instead of throwing the registry-key error. -/
theorem registry_missing_compose_counterexample :
    (validateLibraryConfig
        ⟨none, some [{ layerId := some "a", registryKey := some "k" }]⟩).ok = true ∧
    (∃ nl ∈ normLayersOf (validateLibraryConfig
        ⟨none, some [{ layerId := some "a", registryKey := some "k" }]⟩),
        refMissing nl.assetRef ([] : Registry) = true) ∧
    exceptIsOk (compose [.spin]
        ⟨none, some [{ layerId := some "a", registryKey := some "k" }]⟩
        ⟨⟨2048, 2048, .center⟩, .fin 0, []⟩) = true :=
  ⟨by decide, by decide, rfl⟩

/-- Every layer emitted by the canonical producer pass has the constant
state `{isHovered: false, isPressed: false, isActive: false, isVisible: true}`. -/
theorem producePass_state (ctx : ProcessingContext) (stage : StageConfigNormalized) :
    ∀ (ls : List LayerConfigNormalized) (idx : Nat) (out : List LayerData),
      producePass ctx stage idx ls = .ok out →
      ∀ l ∈ out, l.state = ⟨false, false, false, True⟩ := by
  intro ls
  induction ls with
  | nil =>
    intro idx out h l hl
    rw [producePass] at h
    injection h with h2
    subst h2
    cases hl
  | cons n ns ih =>
    intro idx out h l hl
    rw [producePass] at h
    cases hres : resolveAsset n.assetRef ctx.registry with
    | error e =>
      rw [hres] at h
      cases h
    | ok m =>
      rw [hres] at h
      cases hrest : producePass ctx stage (idx + 1) ns with
      | error e =>
        rw [hrest] at h
        cases h
      | ok rest =>
        rw [hrest] at h
        injection h with h2
        subst h2
        rcases List.mem_cons.mp hl with rfl | hmem
        · rfl
        · exact ih (idx + 1) rest hrest l hmem

/-- Every layer built by the composer's `buildLayerData` has
`isVisible = (opacity > 0)` and the other flags false. -/
theorem mapIdx_build_state (layers : List LayerConfigNormalized)
    (ctx : ProcessingContext) (opts : ComposeOptions) (stage : StageConfigNormalized) :
    ∀ l ∈ layers.mapIdx (fun idx n => buildLayerData n idx ctx opts stage),
      (l.state.isVisible ↔ 0 < l.transform.opacity) ∧
      l.state.isHovered = false ∧ l.state.isPressed = false ∧
      l.state.isActive = false := by
  intro l hl
  rw [List.mapIdx_eq_enum_map] at hl
  obtain ⟨⟨i, n⟩, -, rfl⟩ := List.mem_map.mp hl
  exact ⟨Iff.rfl, rfl, rfl, rfl⟩

/-- C6: layers emitted by `produceLayers` have `state.isVisible = true`
unconditionally (even at zero final opacity), while layers emitted by
`compose(...)`-built pipelines and the `produceBasic*` variants have
`state.isVisible = (final opacity > 0)`; `isHovered`/`isPressed`/
`isActive` are false in both paths. -/
theorem isVisible_discrepancy :
    ∀ (input : LibraryConfig) (ctx : ProcessingContext),
      (∀ r, produceLayers input ctx = .ok r → ∀ l ∈ r.layers,
        (l.state.isVisible ↔ True) ∧ l.state.isHovered = false ∧
        l.state.isPressed = false ∧ l.state.isActive = false) ∧
      (∀ ws r, compose ws input ctx = .ok r → ∀ l ∈ r.layers,
        (l.state.isVisible ↔ 0 < l.transform.opacity) ∧ l.state.isHovered = false ∧
        l.state.isPressed = false ∧ l.state.isActive = false) ∧
      (∀ r, produceBasic input ctx = .ok r → ∀ l ∈ r.layers,
        (l.state.isVisible ↔ 0 < l.transform.opacity) ∧ l.state.isHovered = false ∧
        l.state.isPressed = false ∧ l.state.isActive = false) ∧
      (∀ r, produceBasicSpin input ctx = .ok r → ∀ l ∈ r.layers,
        (l.state.isVisible ↔ 0 < l.transform.opacity) ∧ l.state.isHovered = false ∧
        l.state.isPressed = false ∧ l.state.isActive = false) ∧
      (∀ r, produceBasicOrbit input ctx = .ok r → ∀ l ∈ r.layers,
        (l.state.isVisible ↔ 0 < l.transform.opacity) ∧ l.state.isHovered = false ∧
        l.state.isPressed = false ∧ l.state.isActive = false) ∧
      (∀ r, produceBasicPulse input ctx = .ok r → ∀ l ∈ r.layers,
        (l.state.isVisible ↔ 0 < l.transform.opacity) ∧ l.state.isHovered = false ∧
        l.state.isPressed = false ∧ l.state.isActive = false) ∧
      (∀ r, produceBasicFade input ctx = .ok r → ∀ l ∈ r.layers,
        (l.state.isVisible ↔ 0 < l.transform.opacity) ∧ l.state.isHovered = false ∧
        l.state.isPressed = false ∧ l.state.isActive = false) := by
  intro input ctx
  refine ⟨?_, ?_, ?_, ?_, ?_, ?_, ?_⟩
  · intro r h l hl
    rw [produceLayers] at h
    cases hnorm : (validateLibraryConfig input).normalized with
    | none =>
      rw [hnorm] at h
      cases h
    | some n =>
      rw [hnorm] at h
      dsimp only at h
      by_cases hok : (validateLibraryConfig input).ok = false
      · rw [if_pos hok] at h
        cases h
      · rw [if_neg hok] at h
        cases hpass : producePass ctx n.stage 0 n.layers with
        | error e =>
          rw [hpass] at h
          cases h
        | ok layers =>
          rw [hpass] at h
          injection h with h2
          subst h2
          have hst := producePass_state ctx n.stage n.layers 0 layers hpass l (by simpa using hl)
          rw [hst]
          exact ⟨Iff.rfl, rfl, rfl, rfl⟩
  · intro ws r h l hl
    cases hni : normalizeInput input with
    | error e =>
      rw [compose, hni] at h
      cases h
    | ok v =>
      obtain ⟨st, lsn, wrn⟩ := v
      rw [compose, hni] at h
      injection h with h2
      subst h2
      exact mapIdx_build_state lsn ctx _ st l (by simpa using hl)
  · intro r h l hl
    cases hni : normalizeInput input with
    | error e =>
      rw [produceBasic, hni] at h
      cases h
    | ok v =>
      obtain ⟨st, lsn, wrn⟩ := v
      rw [produceBasic, hni] at h
      injection h with h2
      subst h2
      exact mapIdx_build_state lsn ctx _ st l (by simpa using hl)
  · intro r h l hl
    cases hni : normalizeInput input with
    | error e =>
      rw [produceBasicSpin, hni] at h
      cases h
    | ok v =>
      obtain ⟨st, lsn, wrn⟩ := v
      rw [produceBasicSpin, hni] at h
      injection h with h2
      subst h2
      exact mapIdx_build_state lsn ctx _ st l (by simpa using hl)
  · intro r h l hl
    cases hni : normalizeInput input with
    | error e =>
      rw [produceBasicOrbit, hni] at h
      cases h
    | ok v =>
      obtain ⟨st, lsn, wrn⟩ := v
      rw [produceBasicOrbit, hni] at h
      injection h with h2
      subst h2
      exact mapIdx_build_state lsn ctx _ st l (by simpa using hl)
  · intro r h l hl
    cases hni : normalizeInput input with
    | error e =>
      rw [produceBasicPulse, hni] at h
      cases h
    | ok v =>
      obtain ⟨st, lsn, wrn⟩ := v
      rw [produceBasicPulse, hni] at h
      injection h with h2
      subst h2
      exact mapIdx_build_state lsn ctx _ st l (by simpa using hl)
  · intro r h l hl
    cases hni : normalizeInput input with
    | error e =>
      rw [produceBasicFade, hni] at h
      cases h
    | ok v =>
      obtain ⟨st, lsn, wrn⟩ := v
      rw [produceBasicFade, hni] at h
      injection h with h2
      subst h2
      exact mapIdx_build_state lsn ctx _ st l (by simpa using hl)

/-- Witness for C6 on a concrete one-layer config (canonical path and a
composed spin+fade pipeline). -/
theorem isVisible_discrepancy_witness :
    (∃ r, produceLayers
        ⟨none, some [{ layerId := some "a", imagePath := some "p",
                       opacity := some (.fin 0) }]⟩
        ⟨⟨2048, 2048, .center⟩, .fin 0, []⟩ = .ok r ∧
      r.layers.length = 1 ∧
      ∀ l ∈ r.layers, (l.state.isVisible ↔ True) ∧ l.state.isHovered = false ∧
        l.state.isPressed = false ∧ l.state.isActive = false) ∧
    (∃ r, compose [.spin, .fade]
        ⟨none, some [{ layerId := some "a", imagePath := some "p",
                       opacity := some (.fin 0) }]⟩
        ⟨⟨2048, 2048, .center⟩, .fin 0, []⟩ = .ok r ∧
      r.layers.length = 1 ∧
      ∀ l ∈ r.layers, (l.state.isVisible ↔ 0 < l.transform.opacity) ∧
        l.state.isHovered = false ∧ l.state.isPressed = false ∧
        l.state.isActive = false) :=
  ⟨⟨_, rfl, rfl, fun l hl =>
      (isVisible_discrepancy
        ⟨none, some [{ layerId := some "a", imagePath := some "p",
                       opacity := some (.fin 0) }]⟩
        ⟨⟨2048, 2048, .center⟩, .fin 0, []⟩).1 _ rfl l hl⟩,
   ⟨_, rfl, rfl, fun l hl =>
      (isVisible_discrepancy
        ⟨none, some [{ layerId := some "a", imagePath := some "p",
                       opacity := some (.fin 0) }]⟩
        ⟨⟨2048, 2048, .center⟩, .fin 0, []⟩).2.1 [.spin, .fade] _ rfl l hl⟩⟩

/-- Every normalized layer in the fold's output comes from `processLayer`
on some raw layer of the list, and that call's errors and warnings are
among the fold's collected errors/warnings. -/
theorem validateLayers_mem_norm :
    ∀ (ls : List LayerConfig) (idx0 : Nat) (seen0 : List String)
      (nl : LayerConfigNormalized),
      nl ∈ (validateLayers idx0 seen0 ls).2.2 →
      ∃ l ∈ ls, ∃ idx seen,
        (processLayer idx l seen).norm = some nl ∧
        (∀ e ∈ (processLayer idx l seen).errors, e ∈ (validateLayers idx0 seen0 ls).1) ∧
        (∀ w ∈ (processLayer idx l seen).warnings,
            w ∈ (validateLayers idx0 seen0 ls).2.1) := by
  intro ls
  induction ls with
  | nil =>
    intro idx0 seen0 nl h
    rw [validateLayers] at h
    cases h
  | cons l0 rest ih =>
    intro idx0 seen0 nl h
    rw [validateLayers] at h
    dsimp only at h
    rcases List.mem_append.mp h with h1 | h2
    · refine ⟨l0, List.mem_cons_self _ _, idx0, seen0, ?_, ?_, ?_⟩
      · rcases hno : (processLayer idx0 l0 seen0).norm with _ | x
        · rw [hno] at h1
          cases h1
        · rw [hno] at h1
          simp only [Option.toList, List.mem_singleton] at h1
          rw [h1]
      · intro e he
        rw [validateLayers]
        exact List.mem_append_left _ he
      · intro w hw
        rw [validateLayers]
        exact List.mem_append_left _ hw
    · obtain ⟨l, hl, idx, seen, hn, herr, hwarn⟩ :=
        ih (idx0 + 1) (nextSeen seen0 (processLayer idx0 l0 seen0).seenId) nl h2
      refine ⟨l, List.mem_cons_of_mem _ hl, idx, seen, hn, ?_, ?_⟩
      · intro e he
        rw [validateLayers]
        exact List.mem_append_right _ (herr e he)
      · intro w hw
        rw [validateLayers]
        exact List.mem_append_right _ (hwarn w hw)

/-- A successful `processLayer` call normalizes via `normalizedLayerOf`
and records exactly the container and event errors and the range and
behavior warnings. -/
theorem processLayer_norm_eq (idx : Nat) (layer : LayerConfig) (seen : List String)
    (nl : LayerConfigNormalized)
    (hn : (processLayer idx layer seen).norm = some nl) :
    ∃ lid assetRef, nl = normalizedLayerOf layer lid assetRef idx ∧
      (processLayer idx layer seen).errors =
        containerErrors idx layer ++
          (validateEvents layer.events (layerBase idx ++ ".events")).1 ∧
      (processLayer idx layer seen).warnings =
        rangeWarnings idx layer ++
          behaviorWarnings idx (normalizeBehaviors layer.behaviors) := by
  rcases hid : layer.layerId with _ | lid
  · rw [processLayer, hid] at hn
    dsimp only at hn
    cases hn
  · rw [processLayer, hid] at hn
    dsimp only at hn
    by_cases h0 : lid = ""
    · rw [if_pos h0] at hn
      dsimp only at hn
      cases hn
    · rw [if_neg h0] at hn
      by_cases h1 : seen.contains lid = true
      · rw [if_pos h1] at hn
        dsimp only at hn
        cases hn
      · rw [if_neg h1] at hn
        rcases href : toAssetRef layer with _ | aref
        · rw [href] at hn
          dsimp only at hn
          cases hn
        · rw [href] at hn
          dsimp only at hn
          injection hn with h2
          refine ⟨lid, aref, h2.symm, ?_, ?_⟩
          · rw [processLayer, hid]
            dsimp only
            rw [if_neg h0, if_neg h1, href]
          · rw [processLayer, hid]
            dsimp only
            rw [if_neg h0, if_neg h1, href]

/-- Dissection of `containerErrors = []`: any supplied fitMode/alignment
is valid and any supplied finite width/height is positive. -/
theorem containerErrors_nil_facts (idx : Nat) (layer : LayerConfig)
    (herr : containerErrors idx layer = []) :
    (∀ m, layer.fitMode = some m → isFitMode m = true) ∧
    (∀ a, layer.alignment = some a → isAlignment a = true) ∧
    nonPosQ (widthOf layer) = false ∧ nonPosQ (heightOf layer) = false := by
  rw [containerErrors] at herr
  rcases List.append_eq_nil.mp herr with ⟨herr2, h4⟩
  rcases List.append_eq_nil.mp herr2 with ⟨herr3, h3⟩
  rcases List.append_eq_nil.mp herr3 with ⟨h1, h2⟩
  have hwb : nonPosQ (widthOf layer) = false ∧ nonPosQ (heightOf layer) = false := by
    by_cases hb : (nonPosQ (widthOf layer) || nonPosQ (heightOf layer)) = true
    · simp [hb] at h4
    · constructor
      · cases hx : nonPosQ (widthOf layer)
        · rfl
        · exact absurd (Bool.or_eq_true _ _ ▸ Or.inl hx) hb
      · cases hx : nonPosQ (heightOf layer)
        · rfl
        · exact absurd (Bool.or_eq_true _ _ ▸ Or.inr hx) hb
  refine ⟨?_, ?_, hwb.1, hwb.2⟩
  · intro m hm
    rw [hm] at h1
    dsimp only at h1
    by_cases hf : isFitMode m = true
    · exact hf
    · simp [hf] at h1
  · intro a ha
    rw [ha] at h2
    dsimp only at h2
    by_cases hf : isAlignment a = true
    · exact hf
    · simp [hf] at h2

/-- On an error-free layer, the packed container is present exactly when a
finite width/height or any fitMode/alignment was specified, and it holds
the raw optional values verbatim. -/
theorem containerOf_facts (idx : Nat) (layer : LayerConfig)
    (herr : containerErrors idx layer = []) :
    (containerOf layer).isSome =
      (isNum layer.layerWidth || isNum layer.layerHeight ||
       layer.fitMode.isSome || layer.alignment.isSome) ∧
    (∀ c, containerOf layer = some c →
      c.width = widthOf layer ∧ c.height = heightOf layer ∧
      c.fitMode = layer.fitMode ∧ c.alignment = layer.alignment) := by
  obtain ⟨hfit, halign, hww, hhh⟩ := containerErrors_nil_facts idx layer herr
  have hq1 : qTruthy (widthOf layer) = isNum layer.layerWidth := by
    rw [widthOf] at hww ⊢
    by_cases hw : isNum layer.layerWidth = true
    · rw [if_pos hw] at hww ⊢
      rw [hw, qTruthy, nonPosQ] at *
      simp only [decide_eq_false_iff_not, not_le] at hww
      exact decide_eq_true (by positivity)
    · rw [if_neg hw]
      rw [qTruthy]
      cases hx : isNum layer.layerWidth
      · rfl
      · exact absurd hx hw
  have hq2 : qTruthy (heightOf layer) = isNum layer.layerHeight := by
    rw [heightOf] at hhh ⊢
    by_cases hw : isNum layer.layerHeight = true
    · rw [if_pos hw] at hhh ⊢
      rw [hw, qTruthy, nonPosQ] at *
      simp only [decide_eq_false_iff_not, not_le] at hhh
      exact decide_eq_true (by positivity)
    · rw [if_neg hw]
      rw [qTruthy]
      cases hx : isNum layer.layerHeight
      · rfl
      · exact absurd hx hw
  have hs1 : strTruthy layer.fitMode = layer.fitMode.isSome := by
    rcases hf : layer.fitMode with _ | m
    · rfl
    · have hm := hfit m hf
      simp only [isFitMode, Bool.or_eq_true, beq_iff_eq] at hm
      rw [strTruthy, Option.isSome]
      rcases hm with (rfl | rfl) | rfl <;> decide
  have hs2 : strTruthy layer.alignment = layer.alignment.isSome := by
    rcases hf : layer.alignment with _ | a
    · rfl
    · have hm := halign a hf
      simp only [isAlignment, Bool.or_eq_true, beq_iff_eq] at hm
      rw [strTruthy, Option.isSome]
      rcases hm with (((((((rfl | rfl) | rfl) | rfl) | rfl) | rfl) | rfl) | rfl) | rfl <;>
        decide
  constructor
  · rw [containerOf, ← hq1, ← hq2, ← hs1, ← hs2]
    by_cases hc : (qTruthy (widthOf layer) || qTruthy (heightOf layer) ||
        strTruthy layer.fitMode || strTruthy layer.alignment) = true
    · rw [if_pos hc, hc]
      rfl
    · rw [if_neg hc]
      cases hx : (qTruthy (widthOf layer) || qTruthy (heightOf layer) ||
          strTruthy layer.fitMode || strTruthy layer.alignment)
      · rfl
      · exact absurd hx hc
  · intro c hc
    rw [containerOf] at hc
    by_cases hcnd : (qTruthy (widthOf layer) || qTruthy (heightOf layer) ||
        strTruthy layer.fitMode || strTruthy layer.alignment) = true
    · rw [if_pos hcnd] at hc
      injection hc with h2
      rw [← h2]
      exact ⟨rfl, rfl, rfl, rfl⟩
    · rw [if_neg hcnd] at hc
      cases hc

/-- C3 (amended): for every layer of every accepted config, the
normalized `container` is present iff the raw layer specified a finite
`layerWidth`/`layerHeight` or any `fitMode`/`alignment`; when present it
carries the raw `fitMode` and `alignment` verbatim — both absent when
only width/height were given (the source packs them through unchecked
casts). -/
theorem container_presence :
    ∀ (input : LibraryConfig) (n : LibraryConfigNormalized),
      (validateLibraryConfig input).normalized = some n →
      ∀ nl ∈ n.layers, ∃ raw ∈ input.layers.getD [],
        (nl.container.isSome =
          (isNum raw.layerWidth || isNum raw.layerHeight ||
           raw.fitMode.isSome || raw.alignment.isSome)) ∧
        (∀ c, nl.container = some c →
          c.fitMode = raw.fitMode ∧ c.alignment = raw.alignment) := by
  intro input n hnorm nl hmem
  obtain ⟨hnil, hne, -⟩ := validateLibraryConfig_cases input
  by_cases herr : (validateLibraryConfig input).errors = []
  · obtain ⟨-, ls, hls, hnorm2, hvl⟩ := hnil herr
    rw [hnorm2] at hnorm
    injection hnorm with h2
    subst h2
    obtain ⟨raw, hrawmem, idx, seen, hnormed, herrsub, -⟩ :=
      validateLayers_mem_norm ls 0 [] nl (by simpa using hmem)
    refine ⟨raw, by rw [hls]; simpa using hrawmem, ?_⟩
    obtain ⟨lid, aref, hnl, herreq, -⟩ := processLayer_norm_eq idx raw seen nl hnormed
    have hpe : (processLayer idx raw seen).errors = [] := by
      rcases hpe0 : (processLayer idx raw seen).errors with _ | ⟨e, rest⟩
      · rfl
      · have hmem2 := herrsub e (by rw [hpe0]; exact List.mem_cons_self _ _)
        rw [hvl] at hmem2
        cases hmem2
    have hce : containerErrors idx raw = [] := by
      rw [herreq] at hpe
      exact (List.append_eq_nil.mp hpe).1
    obtain ⟨hiff, hcarry⟩ := containerOf_facts idx raw hce
    have hcont : nl.container = containerOf raw := by
      rw [hnl]
      rfl
    constructor
    · rw [hcont]
      exact hiff
    · intro c hc
      obtain ⟨-, -, hf, ha⟩ := hcarry c (by rw [← hcont]; exact hc)
      exact ⟨hf, ha⟩
  · obtain ⟨-, hn0⟩ := hne herr
    rw [hn0] at hnorm
    cases hnorm

/-- Witness for C3 (amended) on a concrete accepted config with a full
container layer. -/
theorem container_presence_witness :
    ∃ n, (validateLibraryConfig
        ⟨none, some [{ layerId := some "a", imagePath := some "p",
                       layerWidth := some (.fin 10), layerHeight := some (.fin 20),
                       fitMode := some "contain", alignment := some "center" }]⟩).normalized =
      some n ∧
    ∀ nl ∈ n.layers, ∃ raw ∈
        [({ layerId := some "a", imagePath := some "p",
            layerWidth := some (.fin 10), layerHeight := some (.fin 20),
            fitMode := some "contain", alignment := some "center" } : LayerConfig)],
        (nl.container.isSome =
          (isNum raw.layerWidth || isNum raw.layerHeight ||
           raw.fitMode.isSome || raw.alignment.isSome)) ∧
        (∀ c, nl.container = some c →
          c.fitMode = raw.fitMode ∧ c.alignment = raw.alignment) :=
  ⟨_, rfl, fun nl h =>
    container_presence
      ⟨none, some [{ layerId := some "a", imagePath := some "p",
                     layerWidth := some (.fin 10), layerHeight := some (.fin 20),
                     fitMode := some "contain", alignment := some "center" }]⟩
      _ rfl nl h⟩

/-- Counterexample for C3 as frozen: (a) a layer specifying only
width/height is accepted and gets a container that carries NO fitMode and
NO alignment; (b) a layer whose `layerWidth` is specified as NaN is
accepted with NO container, although a container field was specified. -/
theorem container_presence_counterexample :
    ((validateLibraryConfig
        ⟨none, some [{ layerId := some "a", imagePath := some "p",
                       layerWidth := some (.fin 10), layerHeight := some (.fin 10) }]⟩).ok
        = true ∧
     (normLayersOf (validateLibraryConfig
        ⟨none, some [{ layerId := some "a", imagePath := some "p",
                       layerWidth := some (.fin 10), layerHeight := some (.fin 10) }]⟩)).head?.bind
        (·.container) = some ⟨some 10, some 10, none, none⟩) ∧
    ((validateLibraryConfig
        ⟨none, some [{ layerId := some "b", imagePath := some "p",
                       layerWidth := some .nan }]⟩).ok = true ∧
     (normLayersOf (validateLibraryConfig
        ⟨none, some [{ layerId := some "b", imagePath := some "p",
                       layerWidth := some .nan }]⟩)).head?.map (·.container) =
       some none) := by
  decide

/-- Behavior rates/radius/amplitude are carried into the normalized
config verbatim when finite, while the fade endpoints are clamped. -/
theorem normalizeBehaviors_facts (b : Option BehaviorsConfig) :
    (∀ q, ((b.bind (·.spin)).bind (·.rpm)) = some (.fin q) →
      (normalizeBehaviors b).spin.rpm = q) ∧
    (∀ q, ((b.bind (·.orbit)).bind (·.rpm)) = some (.fin q) →
      (normalizeBehaviors b).orbit.rpm = q) ∧
    (∀ q, ((b.bind (·.orbit)).bind (·.radius)) = some (.fin q) →
      (normalizeBehaviors b).orbit.radius = q) ∧
    (∀ q, ((b.bind (·.pulse)).bind (·.amplitude)) = some (.fin q) →
      (normalizeBehaviors b).pulse.amplitude = q) ∧
    (∀ q, ((b.bind (·.pulse)).bind (·.rpm)) = some (.fin q) →
      (normalizeBehaviors b).pulse.rpm = q) ∧
    (∀ q, ((b.bind (·.fade)).bind (·.rpm)) = some (.fin q) →
      (normalizeBehaviors b).fade.rpm = q) ∧
    (∀ q, ((b.bind (·.fade)).bind (·.fromVal)) = some (.fin q) →
      (normalizeBehaviors b).fade.fromVal = clamp01 q) ∧
    (∀ q, ((b.bind (·.fade)).bind (·.toVal)) = some (.fin q) →
      (normalizeBehaviors b).fade.toVal = clamp01 q) := by
  refine ⟨?_, ?_, ?_, ?_, ?_, ?_, ?_, ?_⟩ <;>
    intro q hq <;>
    rw [normalizeBehaviors] <;>
    dsimp only <;>
    rw [hq] <;>
    simp [isNum, JsVal.isFinite, numVal, JsVal.val]

/-- An out-of-range finite opacity puts the range warning into the
layer's range warnings. -/
theorem rangeWarnings_opacity_mem (idx : Nat) (raw : LayerConfig) (q : ℚ)
    (hq : raw.opacity = some (.fin q)) (hout : q < 0 ∨ 1 < q) :
    (⟨"layer.opacity.range", layerBase idx ++ ".opacity",
      "opacity should be within [0,1]", .warning⟩ : ValidationIssue) ∈
      rangeWarnings idx raw := by
  have hno : normOpacity raw = q := by
    rw [normOpacity, hq]
    simp [isNum, JsVal.isFinite, numVal, JsVal.val]
  rw [rangeWarnings]
  apply List.mem_append_left
  rw [hno, if_pos hout]
  exact List.mem_singleton.mpr rfl

/-- The collected warnings of `validateLibraryConfig` are the stage
warnings followed by the per-layer fold warnings. -/
theorem validateLibraryConfig_warnings (input : LibraryConfig)
    (ls : List LayerConfig) (hls : input.layers = some ls) :
    (validateLibraryConfig input).warnings =
      stageWarningsOf input.stage ++ (validateLayers 0 [] ls).2.1 := by
  rw [validateLibraryConfig, hls]
  dsimp only
  by_cases h : (validateLayers 0 [] ls).1 = []
  · rw [if_pos h]
  · rw [if_neg h]

/-- C4 (amended): for every layer of every accepted config, an
out-of-range finite opacity is kept verbatim in the normalized output
(with only a `layer.opacity.range` warning recorded), the anchor vector is
kept verbatim, and the behavior rates (spin/orbit/pulse/fade rpm, orbit
radius, pulse amplitude) are carried unclamped — but the fade config's
`from`/`to` ARE clamped to [0,1] by `clamp01` during normalization. -/
theorem no_clamp_in_normalization :
    ∀ (input : LibraryConfig) (n : LibraryConfigNormalized),
      (validateLibraryConfig input).normalized = some n →
      ∀ nl ∈ n.layers, ∃ raw ∈ input.layers.getD [],
        (∀ q, raw.opacity = some (.fin q) →
          nl.opacity = q ∧
          ((q < 0 ∨ 1 < q) →
            ∃ w ∈ (validateLibraryConfig input).warnings,
              w.code = "layer.opacity.range")) ∧
        (∀ v, raw.anchor = some v → isVec2 (some v) = true →
          nl.anchor = ⟨v.x.val, v.y.val⟩) ∧
        nl.behaviors = normalizeBehaviors raw.behaviors ∧
        (∀ q, ((raw.behaviors.bind (·.spin)).bind (·.rpm)) = some (.fin q) →
          nl.behaviors.spin.rpm = q) ∧
        (∀ q, ((raw.behaviors.bind (·.orbit)).bind (·.rpm)) = some (.fin q) →
          nl.behaviors.orbit.rpm = q) ∧
        (∀ q, ((raw.behaviors.bind (·.orbit)).bind (·.radius)) = some (.fin q) →
          nl.behaviors.orbit.radius = q) ∧
        (∀ q, ((raw.behaviors.bind (·.pulse)).bind (·.amplitude)) = some (.fin q) →
          nl.behaviors.pulse.amplitude = q) ∧
        (∀ q, ((raw.behaviors.bind (·.fade)).bind (·.fromVal)) = some (.fin q) →
          nl.behaviors.fade.fromVal = clamp01 q) ∧
        (∀ q, ((raw.behaviors.bind (·.fade)).bind (·.toVal)) = some (.fin q) →
          nl.behaviors.fade.toVal = clamp01 q) := by
  intro input n hnorm nl hmem
  obtain ⟨hnil, hne, -⟩ := validateLibraryConfig_cases input
  by_cases herr : (validateLibraryConfig input).errors = []
  · obtain ⟨-, ls, hls, hnorm2, -⟩ := hnil herr
    rw [hnorm2] at hnorm
    injection hnorm with h2
    subst h2
    obtain ⟨raw, hrawmem, idx, seen, hnormed, -, hwarnsub⟩ :=
      validateLayers_mem_norm ls 0 [] nl (by simpa using hmem)
    refine ⟨raw, by rw [hls]; simpa using hrawmem, ?_⟩
    obtain ⟨lid, aref, hnl, -, hwarneq⟩ := processLayer_norm_eq idx raw seen nl hnormed
    have hop : nl.opacity = normOpacity raw := by
      rw [hnl]
      rfl
    have han : nl.anchor = normAnchor raw := by
      rw [hnl]
      rfl
    have hbe : nl.behaviors = normalizeBehaviors raw.behaviors := by
      rw [hnl]
      rfl
    obtain ⟨f1, f2, f3, f4, f5, f6, f7, f8⟩ := normalizeBehaviors_facts raw.behaviors
    refine ⟨?_, ?_, hbe, ?_, ?_, ?_, ?_, ?_, ?_⟩
    · intro q hq
      have hno : normOpacity raw = q := by
        rw [normOpacity, hq]
        simp [isNum, JsVal.isFinite, numVal, JsVal.val]
      refine ⟨by rw [hop, hno], fun hout => ?_⟩
      refine ⟨⟨"layer.opacity.range", layerBase idx ++ ".opacity",
        "opacity should be within [0,1]", .warning⟩, ?_, rfl⟩
      rw [validateLibraryConfig_warnings input ls hls]
      apply List.mem_append_right
      apply hwarnsub
      rw [hwarneq]
      exact List.mem_append_left _ (rangeWarnings_opacity_mem idx raw q hq hout)
    · intro v hv hvec
      rw [han, normAnchor, hv, if_pos hvec]
      rfl
    · intro q hq
      rw [hbe]
      exact f1 q hq
    · intro q hq
      rw [hbe]
      exact f2 q hq
    · intro q hq
      rw [hbe]
      exact f3 q hq
    · intro q hq
      rw [hbe]
      exact f4 q hq
    · intro q hq
      rw [hbe]
      exact f7 q hq
    · intro q hq
      rw [hbe]
      exact f8 q hq
  · obtain ⟨-, hn0⟩ := hne herr
    rw [hn0] at hnorm
    cases hnorm

/-- Witness for C4 (amended) on a concrete accepted config with
out-of-range opacity and a fade `from` of 2. -/
theorem no_clamp_in_normalization_witness :
    ∃ n, (validateLibraryConfig
        ⟨none, some [{ layerId := some "a", imagePath := some "p",
                       opacity := some (.fin 2),
                       behaviors := some { fade := some { fromVal := some (.fin 2) } } }]⟩).normalized =
      some n ∧
    ∀ nl ∈ n.layers, nl.opacity = 2 ∧ nl.behaviors.fade.fromVal = clamp01 2 :=
  ⟨_, rfl, fun nl h => by
    obtain ⟨raw, hraw, hopa, -, -, -, -, -, -, hfrom, -⟩ :=
      no_clamp_in_normalization
        ⟨none, some [{ layerId := some "a", imagePath := some "p",
                       opacity := some (.fin 2),
                       behaviors := some { fade := some { fromVal := some (.fin 2) } } }]⟩
        _ rfl nl h
    obtain rfl := List.mem_singleton.mp hraw
    exact ⟨(hopa 2 rfl).1, hfrom 2 rfl⟩⟩

/-- Counterexample for C4 as frozen: a fade `from` of 2 on an accepted
layer is clamped to 1 during normalization, so the fade endpoints are NOT
carried into the normalized config unclamped. -/
theorem no_clamp_counterexample :
    (validateLibraryConfig
        ⟨none, some [{ layerId := some "a", imagePath := some "p",
                       behaviors := some { fade := some { fromVal := some (.fin 2) } } }]⟩).ok
      = true ∧
    (normLayersOf (validateLibraryConfig
        ⟨none, some [{ layerId := some "a", imagePath := some "p",
                       behaviors := some { fade := some { fromVal := some (.fin 2) } } }]⟩)).head?.map
      (·.behaviors.fade.fromVal) = some 1 ∧
    ¬((normLayersOf (validateLibraryConfig
        ⟨none, some [{ layerId := some "a", imagePath := some "p",
                       behaviors := some { fade := some { fromVal := some (.fin 2) } } }]⟩)).head?.map
      (·.behaviors.fade.fromVal) = some 2) := by
  decide
